import Mathlib

/-!
# KafkaBinding: injection (`Do`) and removal (`Undo`) of Kafka connection settings

Shallow embedding of `pkg/apis/bindings/v1beta1/kafka_lifecycle.go`.

Go slices are modelled as Lean lists with value semantics, pointers that may be
nil as `Option`.  A Go `for i := range xs { xs[i] = ... }` loop that rewrites
element `i` only is a `List.map`.  The one place where Go's slice-header
semantics is visible is kept explicit: `Do` and `Undo` both start with
`spec := ps.Spec.Template.Spec`, a copy of the `PodSpec` struct.  Writes to
`spec.Containers[i]` and `spec.InitContainers[i]` go through the backing array
shared with `ps`; an assignment to the field `spec.Volumes` changes the local
copy only.
-/

namespace Bindings

/-! ## Data model (the parts of `corev1` and `duckv1` the code touches) -/

/-- corev1.SecretKeySelector: a key inside a named secret. -/
structure SecretKeySelector where
  name : String
  key : String
  optional : Option Bool
  deriving DecidableEq, Repr

/-- corev1.EnvVarSource.  The code reads and writes `SecretKeyRef` only; the
other pointer fields (FieldRef, ResourceFieldRef, ConfigMapKeyRef) are kept as
one payload `otherRef`, nil in every value the code builds. -/
structure EnvVarSource where
  secretKeyRef : Option SecretKeySelector
  otherRef : Option String
  deriving DecidableEq, Repr

/-- corev1.EnvVar: `Value` is the literal ("" when unset), `ValueFrom` a pointer. -/
structure EnvVar where
  name : String
  value : String
  valueFrom : Option EnvVarSource
  deriving DecidableEq, Repr

/-- corev1.VolumeMount. -/
structure VolumeMount where
  name : String
  readOnly : Bool
  mountPath : String
  subPath : String
  deriving DecidableEq, Repr

/-- corev1.KeyToPath. -/
structure KeyToPath where
  key : String
  path : String
  mode : Option Int
  deriving DecidableEq, Repr

/-- corev1.SecretVolumeSource. -/
structure SecretVolumeSource where
  secretName : String
  items : List KeyToPath
  defaultMode : Option Int
  optional : Option Bool
  deriving DecidableEq, Repr

/-- corev1.VolumeSource: `Secret` is the only member the code sets; every other
member is kept as one payload `otherSource`. -/
structure VolumeSource where
  secret : Option SecretVolumeSource
  otherSource : Option String
  deriving DecidableEq, Repr

/-- corev1.Volume. -/
structure Volume where
  name : String
  volumeSource : VolumeSource
  deriving DecidableEq, Repr

/-- corev1.ContainerPort. -/
structure ContainerPort where
  name : String
  containerPort : Int
  deriving DecidableEq, Repr

/-- corev1.Container, with the fields the code reads or writes (`Env`,
`VolumeMounts`, and `Ports` in the receive adapter) and two the binding leaves
alone. -/
structure Container where
  name : String
  image : String
  env : List EnvVar
  volumeMounts : List VolumeMount
  ports : List ContainerPort := []
  deriving DecidableEq, Repr

/-- corev1.PodSpec. -/
structure PodSpec where
  volumes : List Volume
  initContainers : List Container
  containers : List Container
  deriving DecidableEq, Repr

/-- duckv1.PodSpecable (a corev1.PodTemplateSpec). -/
structure PodSpecable where
  spec : PodSpec
  deriving DecidableEq, Repr

/-- duckv1.WithPodSpec. -/
structure WithPodSpec where
  template : PodSpecable
  deriving DecidableEq, Repr

/-- duckv1.WithPod: the pod template the binding is applied to. -/
structure WithPod where
  spec : WithPodSpec
  deriving DecidableEq, Repr

/-- SecretValueFromSource: an optional reference to a secret key. -/
structure SecretValueFromSource where
  secretKeyRef : Option SecretKeySelector
  deriving DecidableEq, Repr

/-- KafkaSASLSpec, as read by `Do` (`Spec.Net.SASL`). -/
structure KafkaSASLSpec where
  enable : Bool
  user : SecretValueFromSource
  password : SecretValueFromSource
  type : SecretValueFromSource
  deriving DecidableEq, Repr

/-- The Kerberos block, as read by `Do` (`Spec.Net.GSSAPI`). -/
structure KafkaGSSAPISpec where
  enable : Bool
  keyTab : SecretValueFromSource
  config : SecretValueFromSource
  principal : SecretValueFromSource
  service : SecretValueFromSource
  realm : SecretValueFromSource
  username : SecretValueFromSource
  password : SecretValueFromSource
  deriving DecidableEq, Repr

/-- KafkaTLSSpec, as read by `Do` (`Spec.Net.TLS`). -/
structure KafkaTLSSpec where
  enable : Bool
  cert : SecretValueFromSource
  key : SecretValueFromSource
  caCert : SecretValueFromSource
  deriving DecidableEq, Repr

/-- KafkaNetSpec. -/
structure KafkaNetSpec where
  sasl : KafkaSASLSpec
  gssapi : KafkaGSSAPISpec
  tls : KafkaTLSSpec
  deriving DecidableEq, Repr

/-- KafkaBindingSpec, the part `Do` reads: broker addresses and `Net`. -/
structure KafkaBindingSpec where
  bootstrapServers : List String
  net : KafkaNetSpec
  deriving DecidableEq, Repr

/-- KafkaBinding. -/
structure KafkaBinding where
  spec : KafkaBindingSpec
  deriving DecidableEq, Repr

/-! ## Library functions used by the code -/

/-- Go `strings.Join(elems, sep)`. -/
def stringsJoin (elems : List String) (sep : String) : String :=
  sep.intercalate elems

/-- Splits a path at every '/', keeping empty components. -/
def splitSlash : List Char → List (List Char)
  | [] => [[]]
  | c :: cs =>
    match splitSlash cs with
    | [] => [[]]
    | h :: t => if c = '/' then [] :: h :: t else (c :: h) :: t

/-- One component of Go `path.Clean`: empty and "." components vanish, ".."
removes the component before it (it stays when there is none to remove in a
relative path, and vanishes at the root). -/
def pathCleanStep (rooted : Bool) (out : List String) (comp : String) : List String :=
  if comp = "" ∨ comp = "." then out
  else if comp = ".." then
    match out.getLast? with
    | some last => if last = ".." then out ++ [comp] else out.dropLast
    | none => if rooted then out else out ++ [comp]
  else out ++ [comp]

/-- Go `path.Clean`. -/
def pathClean (p : String) : String :=
  if p = "" then "."
  else
    let rooted : Bool := p.data.head? = some '/'
    let comps := ((splitSlash p.data).map String.mk).foldl (pathCleanStep rooted) []
    let body := "/".intercalate comps
    if rooted then "/" ++ body else if body = "" then "." else body

/-- Go `path.Join`: the non-empty elements joined with '/', then cleaned; the
empty string when every element is empty. -/
def pathJoin (elem : List String) : String :=
  let parts := elem.filter (fun e => e ≠ "")
  if parts = [] then "" else pathClean ("/".intercalate parts)

/-! ## Undo -/

/-- The names of the `switch ev.Name` case in the loop of `Undo` over
`spec.InitContainers`, in source order. -/
def undoInitCaseNames : List String :=
  ["KAFKA_NET_TLS_ENABLE", "KAFKA_NET_TLS_CERT", "KAFKA_NET_TLS_KEY", "KAFKA_NET_TLS_CA_CERT",
   "KAFKA_NET_SASL_ENABLE", "KAFKA_NET_SASL_USER", "KAFKA_NET_SASL_PASSWORD",
   "KAFKA_NET_SASL_KERBEROS_ENABLE", "KAFKA_NET_SASL_KERBEROS_KEYTAB_FILE",
   "KAFKA_NET_SASL_KERBEROS_CONFIG_FILE",
   "KAFKA_NET_SASL_KERBEROS_PRINCIPAL", "KAFKA_NET_SASL_KERBEROS_SERVICE",
   "KAFKA_NET_SASL_KERBEROS_REALM",
   "KAFKA_NET_SASL_KERBEROS_USERNAME", "KAFKA_NET_SASL_KERBEROS_PASSWORD",
   "KAFKA_NET_SASL_TYPE", "KAFKA_BOOTSTRAP_SERVERS"]

/-- The body of the loop over `spec.InitContainers` in `Undo`, for one container:
a container with `len(c.Env) == 0` is skipped; otherwise a fresh slice collects,
in order, every entry whose name is not one of the case names. -/
def undoInitContainer (c : Container) : Container :=
  if c.env.length = 0 then c
  else
    let env := c.env.foldl
      (fun env ev => if ev.name ∈ undoInitCaseNames then env else env ++ [ev]) []
    { c with env := env }

/-- The names of the `switch ev.Name` case in the loop of `Undo` over
`spec.Containers`, in source order. -/
def undoCaseNames : List String :=
  ["KAFKA_NET_TLS_ENABLE", "KAFKA_NET_TLS_CERT", "KAFKA_NET_TLS_KEY", "KAFKA_NET_TLS_CA_CERT",
   "KAFKA_NET_SASL_ENABLE", "KAFKA_NET_SASL_USER", "KAFKA_NET_SASL_PASSWORD",
   "KAFKA_NET_SASL_KERBEROS_ENABLE", "KAFKA_NET_SASL_KERBEROS_KEYTAB_FILE",
   "KAFKA_NET_SASL_KERBEROS_CONFIG_FILE",
   "KAFKA_NET_SASL_KERBEROS_PRINCIPAL", "KAFKA_NET_SASL_KERBEROS_SERVICE",
   "KAFKA_NET_SASL_KERBEROS_REALM",
   "KAFKA_NET_SASL_KERBEROS_USERNAME", "KAFKA_NET_SASL_KERBEROS_PASSWORD",
   "KAFKA_NET_SASL_TYPE", "KAFKA_BOOTSTRAP_SERVERS"]

/-- The body of the loop over `spec.Containers` in `Undo`, for one container:
a container with `len(c.Env) == 0` is skipped; otherwise a fresh slice collects,
in order, every entry whose name is not one of the case names. -/
def undoContainer (c : Container) : Container :=
  if c.env.length = 0 then c
  else
    let env := c.env.foldl
      (fun env ev => if ev.name ∈ undoCaseNames then env else env ++ [ev]) []
    { c with env := env }

/-- KafkaBinding.Undo: both loops write through the container arrays shared
with `ps`; nothing else of `ps` is assigned. -/
def KafkaBinding.Undo (_kfb : KafkaBinding) (ps : WithPod) : WithPod :=
  let spec := ps.spec.template.spec
  let initContainers := spec.initContainers.map undoInitContainer
  let containers := spec.containers.map undoContainer
  { ps with spec.template.spec.initContainers := initContainers,
            spec.template.spec.containers := containers }

/-! ## Do -/

/-- The keytab volume built by `Do`. -/
def keytabVolume (ref : SecretKeySelector) : Volume :=
  { name := "krb5.keytab",
    volumeSource :=
      { secret := some { secretName := ref.name,
                         items := [{ key := ref.key, path := "krb5.keytab", mode := none }],
                         defaultMode := none, optional := none },
        otherSource := none } }

/-- The Kerberos configuration volume built by `Do`. -/
def configVolume (ref : SecretKeySelector) : Volume :=
  { name := "krb5.conf",
    volumeSource :=
      { secret := some { secretName := ref.name,
                         items := [{ key := ref.key, path := "krb5.conf", mode := none }],
                         defaultMode := none, optional := none },
        otherSource := none } }

/-- The value of the local `spec.Volumes` after the first block of `Do`
(`spec.Volumes = append(spec.Volumes, ...)`), from its value `volumes` before. -/
def doVolumes (kfb : KafkaBinding) (volumes : List Volume) : List Volume :=
  if kfb.spec.net.gssapi.enable then
    let volumes :=
      match kfb.spec.net.gssapi.keyTab.secretKeyRef with
      | some ref => volumes ++ [keytabVolume ref]
      | none => volumes
    let volumes :=
      match kfb.spec.net.gssapi.config.secretKeyRef with
      | some ref => volumes ++ [configVolume ref]
      | none => volumes
    volumes
  else volumes

/-- The body of the loop over `spec.InitContainers` in `Do`, for one container: only
`Env` and `VolumeMounts` of the element are assigned. -/
def doInitContainer (kfb : KafkaBinding) (c : Container) : Container :=
  let c := { c with env := c.env ++ [
    { name := "KAFKA_BOOTSTRAP_SERVERS",
      value := stringsJoin kfb.spec.bootstrapServers ",", valueFrom := none }] }
  let c :=
    if kfb.spec.net.sasl.enable then
      { c with env := c.env ++ [
        { name := "KAFKA_NET_SASL_ENABLE", value := "true", valueFrom := none },
        { name := "KAFKA_NET_SASL_USER", value := "",
          valueFrom := some { secretKeyRef := kfb.spec.net.sasl.user.secretKeyRef,
                              otherRef := none } },
        { name := "KAFKA_NET_SASL_PASSWORD", value := "",
          valueFrom := some { secretKeyRef := kfb.spec.net.sasl.password.secretKeyRef,
                              otherRef := none } },
        { name := "KAFKA_NET_SASL_TYPE", value := "",
          valueFrom := some { secretKeyRef := kfb.spec.net.sasl.type.secretKeyRef,
                              otherRef := none } }] }
    else c
  let c :=
    if kfb.spec.net.gssapi.enable then
      let c :=
        if kfb.spec.net.gssapi.keyTab.secretKeyRef ≠ none then
          let keytab : VolumeMount :=
            { name := "krb5.keytab", readOnly := false, mountPath := "/etc/", subPath := "" }
          let c := { c with volumeMounts := c.volumeMounts ++ [keytab] }
          { c with env := c.env ++ [
            { name := "KAFKA_NET_SASL_KERBEROS_KEYTAB_FILE",
              value := pathJoin [keytab.mountPath, keytab.name], valueFrom := none }] }
        else c
      let c :=
        if kfb.spec.net.gssapi.config.secretKeyRef ≠ none then
          let config : VolumeMount :=
            { name := "krb5.conf", readOnly := false, mountPath := "/etc/", subPath := "" }
          let c := { c with volumeMounts := c.volumeMounts ++ [config] }
          { c with env := c.env ++ [
            { name := "KAFKA_NET_SASL_KERBEROS_CONFIG_FILE",
              value := pathJoin [config.mountPath, config.name], valueFrom := none }] }
        else c
      { c with env := c.env ++ [
        { name := "KAFKA_NET_SASL_KERBEROS_ENABLE", value := "true", valueFrom := none },
        { name := "KAFKA_NET_SASL_KERBEROS_PRINCIPAL", value := "",
          valueFrom := some { secretKeyRef := kfb.spec.net.gssapi.principal.secretKeyRef,
                              otherRef := none } },
        { name := "KAFKA_NET_SASL_KERBEROS_SERVICE", value := "",
          valueFrom := some { secretKeyRef := kfb.spec.net.gssapi.service.secretKeyRef,
                              otherRef := none } },
        { name := "KAFKA_NET_SASL_KERBEROS_REALM", value := "",
          valueFrom := some { secretKeyRef := kfb.spec.net.gssapi.realm.secretKeyRef,
                              otherRef := none } },
        { name := "KAFKA_NET_SASL_KERBEROS_USERNAME", value := "",
          valueFrom := some { secretKeyRef := kfb.spec.net.gssapi.username.secretKeyRef,
                              otherRef := none } },
        { name := "KAFKA_NET_SASL_KERBEROS_PASSWORD", value := "",
          valueFrom := some { secretKeyRef := kfb.spec.net.gssapi.password.secretKeyRef,
                              otherRef := none } }] }
    else c
  let c :=
    if kfb.spec.net.tls.enable then
      { c with env := c.env ++ [
        { name := "KAFKA_NET_TLS_ENABLE", value := "true", valueFrom := none },
        { name := "KAFKA_NET_TLS_CERT", value := "",
          valueFrom := some { secretKeyRef := kfb.spec.net.tls.cert.secretKeyRef,
                              otherRef := none } },
        { name := "KAFKA_NET_TLS_KEY", value := "",
          valueFrom := some { secretKeyRef := kfb.spec.net.tls.key.secretKeyRef,
                              otherRef := none } },
        { name := "KAFKA_NET_TLS_CA_CERT", value := "",
          valueFrom := some { secretKeyRef := kfb.spec.net.tls.caCert.secretKeyRef,
                              otherRef := none } }] }
    else c
  c

/-- The body of the loop over `spec.Containers` in `Do`, for one container: only
`Env` and `VolumeMounts` of the element are assigned. -/
def doContainer (kfb : KafkaBinding) (c : Container) : Container :=
  let c := { c with env := c.env ++ [
    { name := "KAFKA_BOOTSTRAP_SERVERS",
      value := stringsJoin kfb.spec.bootstrapServers ",", valueFrom := none }] }
  let c :=
    if kfb.spec.net.sasl.enable then
      { c with env := c.env ++ [
        { name := "KAFKA_NET_SASL_ENABLE", value := "true", valueFrom := none },
        { name := "KAFKA_NET_SASL_USER", value := "",
          valueFrom := some { secretKeyRef := kfb.spec.net.sasl.user.secretKeyRef,
                              otherRef := none } },
        { name := "KAFKA_NET_SASL_PASSWORD", value := "",
          valueFrom := some { secretKeyRef := kfb.spec.net.sasl.password.secretKeyRef,
                              otherRef := none } },
        { name := "KAFKA_NET_SASL_TYPE", value := "",
          valueFrom := some { secretKeyRef := kfb.spec.net.sasl.type.secretKeyRef,
                              otherRef := none } }] }
    else c
  let c :=
    if kfb.spec.net.gssapi.enable then
      let c :=
        if kfb.spec.net.gssapi.keyTab.secretKeyRef ≠ none then
          let keytab : VolumeMount :=
            { name := "krb5.keytab", readOnly := false, mountPath := "/etc/", subPath := "" }
          let c := { c with volumeMounts := c.volumeMounts ++ [keytab] }
          { c with env := c.env ++ [
            { name := "KAFKA_NET_SASL_KERBEROS_KEYTAB_FILE",
              value := pathJoin [keytab.mountPath, keytab.name], valueFrom := none }] }
        else c
      let c :=
        if kfb.spec.net.gssapi.config.secretKeyRef ≠ none then
          let config : VolumeMount :=
            { name := "krb5.conf", readOnly := false, mountPath := "/etc/", subPath := "" }
          let c := { c with volumeMounts := c.volumeMounts ++ [config] }
          { c with env := c.env ++ [
            { name := "KAFKA_NET_SASL_KERBEROS_CONFIG_FILE",
              value := pathJoin [config.mountPath, config.name], valueFrom := none }] }
        else c
      { c with env := c.env ++ [
        { name := "KAFKA_NET_SASL_KERBEROS_ENABLE", value := "true", valueFrom := none },
        { name := "KAFKA_NET_SASL_KERBEROS_PRINCIPAL", value := "",
          valueFrom := some { secretKeyRef := kfb.spec.net.gssapi.principal.secretKeyRef,
                              otherRef := none } },
        { name := "KAFKA_NET_SASL_KERBEROS_SERVICE", value := "",
          valueFrom := some { secretKeyRef := kfb.spec.net.gssapi.service.secretKeyRef,
                              otherRef := none } },
        { name := "KAFKA_NET_SASL_KERBEROS_REALM", value := "",
          valueFrom := some { secretKeyRef := kfb.spec.net.gssapi.realm.secretKeyRef,
                              otherRef := none } },
        { name := "KAFKA_NET_SASL_KERBEROS_USERNAME", value := "",
          valueFrom := some { secretKeyRef := kfb.spec.net.gssapi.username.secretKeyRef,
                              otherRef := none } },
        { name := "KAFKA_NET_SASL_KERBEROS_PASSWORD", value := "",
          valueFrom := some { secretKeyRef := kfb.spec.net.gssapi.password.secretKeyRef,
                              otherRef := none } }] }
    else c
  let c :=
    if kfb.spec.net.tls.enable then
      { c with env := c.env ++ [
        { name := "KAFKA_NET_TLS_ENABLE", value := "true", valueFrom := none },
        { name := "KAFKA_NET_TLS_CERT", value := "",
          valueFrom := some { secretKeyRef := kfb.spec.net.tls.cert.secretKeyRef,
                              otherRef := none } },
        { name := "KAFKA_NET_TLS_KEY", value := "",
          valueFrom := some { secretKeyRef := kfb.spec.net.tls.key.secretKeyRef,
                              otherRef := none } },
        { name := "KAFKA_NET_TLS_CA_CERT", value := "",
          valueFrom := some { secretKeyRef := kfb.spec.net.tls.caCert.secretKeyRef,
                              otherRef := none } }] }
    else c
  c

/-- The local variable `spec` of `Do` when the function returns, from the
template `ps` as `Undo` left it. -/
def doLocalSpec (kfb : KafkaBinding) (ps : WithPod) : PodSpec :=
  let spec := ps.spec.template.spec
  let spec := { spec with volumes := doVolumes kfb spec.volumes }
  let spec := { spec with initContainers := spec.initContainers.map (doInitContainer kfb) }
  let spec := { spec with containers := spec.containers.map (doContainer kfb) }
  spec

/-- KafkaBinding.Do, as its caller sees `*ps` afterwards.  `spec` is a copy of
the struct `ps.Spec.Template.Spec`: the element writes `spec.InitContainers[i]`
and `spec.Containers[i]` land in the arrays `ps` shares, while
`spec.Volumes = append(spec.Volumes, ...)` assigns the field of the copy, so the
slice `ps.Spec.Template.Spec.Volumes` keeps its length and elements. -/
def KafkaBinding.Do (kfb : KafkaBinding) (ps : WithPod) : WithPod :=
  let ps := kfb.Undo ps
  let spec := doLocalSpec kfb ps
  { ps with spec.template.spec.initContainers := spec.initContainers,
            spec.template.spec.containers := spec.containers }

/-! ## The receive adapter (`pkg/source/reconciler/source/resources/receive_adapter.go`) -/

/-- duckv1.CloudEventOverrides. -/
structure CloudEventOverrides where
  extensions : List (String × String)
  deriving DecidableEq, Repr

/-- KafkaSourceSpec, the fields `MakeReceiveAdapter` reads.  `Consumers` and
`CloudEventOverrides` are pointers that may be nil. -/
structure KafkaSourceSpec where
  bootstrapServers : List String
  net : KafkaNetSpec
  topics : List String
  consumerGroup : String
  initialOffset : String
  consumers : Option Int
  cloudEventOverrides : Option CloudEventOverrides
  deriving DecidableEq, Repr

/-- KafkaSource: the object metadata `MakeReceiveAdapter` reads and the spec.
The label map is an association list read with `List.lookup`. -/
structure KafkaSource where
  name : String
  nameSpace : String
  uid : String
  labels : List (String × String)
  spec : KafkaSourceSpec
  deriving DecidableEq, Repr

/-- ReceiveAdapterArgs.  `Source` is a pointer the function dereferences without
a test; it is taken as the struct it points to. -/
structure ReceiveAdapterArgs where
  image : String
  source : KafkaSource
  labels : List (String × String)
  sinkURI : String
  additionalEnvs : List EnvVar
  deriving DecidableEq, Repr

/-- metav1.OwnerReference. -/
structure OwnerReference where
  apiVersion : String
  kind : String
  name : String
  uid : String
  controller : Option Bool
  blockOwnerDeletion : Option Bool
  deriving DecidableEq, Repr

/-- metav1.ObjectMeta, the fields `MakeReceiveAdapter` sets. -/
structure ObjectMeta where
  name : String
  nameSpace : String
  labels : List (String × String)
  ownerReferences : List OwnerReference
  deriving DecidableEq, Repr

/-- corev1.PodTemplateSpec as the deployment holds it: labels and pod spec. -/
structure PodTemplateSpec where
  labels : List (String × String)
  spec : PodSpec
  deriving DecidableEq, Repr

/-- appsv1.DeploymentSpec, the fields `MakeReceiveAdapter` sets. -/
structure DeploymentSpec where
  selectorMatchLabels : List (String × String)
  replicas : Option Int
  template : PodTemplateSpec
  deriving DecidableEq, Repr

/-- appsv1.Deployment. -/
structure Deployment where
  objectMeta : ObjectMeta
  spec : DeploymentSpec
  deriving DecidableEq, Repr

/-- What `MakeReceiveAdapter` takes from other packages: the label key
`v1beta1.KafkaKeyTypeLabel`, the env name `adapter.EnvConfigCEOverrides`,
`json.Marshal` on the overrides, `kmeta.ChildName` and `kmeta.NewControllerRef`. -/
structure AdapterDeps where
  kafkaKeyTypeLabel : String
  envConfigCEOverrides : String
  jsonMarshal : CloudEventOverrides → String
  childName : String → String → String
  newControllerRef : KafkaSource → OwnerReference

/-- Go `strconv.FormatBool`. -/
def formatBool (b : Bool) : String :=
  if b then "true" else "false"

/-- The function appendEnvFromSecretKeyRef: `env` with an entry appended that
sets `key` from the secret key `ref`; `env` itself when `ref` is nil. -/
def appendEnvFromSecretKeyRef (env : List EnvVar) (key : String)
    (ref : Option SecretKeySelector) : List EnvVar :=
  match ref with
  | none => env
  | some r =>
    let env := env ++ [{ name := key, value := "",
                         valueFrom := some { secretKeyRef := some r, otherRef := none } }]
    env

/-- The function MakeReceiveAdapter. -/
def MakeReceiveAdapter (deps : AdapterDeps) (args : ReceiveAdapterArgs) : Deployment :=
  let env : List EnvVar :=
    [{ name := "KAFKA_BOOTSTRAP_SERVERS",
       value := stringsJoin args.source.spec.bootstrapServers ",", valueFrom := none },
     { name := "KAFKA_TOPICS",
       value := stringsJoin args.source.spec.topics ",", valueFrom := none },
     { name := "KAFKA_CONSUMER_GROUP",
       value := args.source.spec.consumerGroup, valueFrom := none },
     { name := "KAFKA_NET_SASL_ENABLE",
       value := formatBool args.source.spec.net.sasl.enable, valueFrom := none },
     { name := "KAFKA_NET_TLS_ENABLE",
       value := formatBool args.source.spec.net.tls.enable, valueFrom := none },
     { name := "K_SINK", value := args.sinkURI, valueFrom := none },
     { name := "NAME", value := args.source.name, valueFrom := none },
     { name := "NAMESPACE", value := args.source.nameSpace, valueFrom := none }]
      ++ args.additionalEnvs
  let env :=
    match args.source.labels.lookup deps.kafkaKeyTypeLabel with
    | some val => env ++ [{ name := "KEY_TYPE", value := val, valueFrom := none }]
    | none => env
  let env :=
    if args.source.spec.initialOffset ≠ "" then
      env ++ [{ name := "KAFKA_INITIAL_OFFSET", value := args.source.spec.initialOffset,
                valueFrom := none }]
    else env
  let env :=
    match args.source.spec.cloudEventOverrides with
    | some overrides =>
      env ++ [{ name := deps.envConfigCEOverrides, value := deps.jsonMarshal overrides,
                valueFrom := none }]
    | none => env
  let env := appendEnvFromSecretKeyRef env "KAFKA_NET_SASL_USER"
    args.source.spec.net.sasl.user.secretKeyRef
  let env := appendEnvFromSecretKeyRef env "KAFKA_NET_SASL_PASSWORD"
    args.source.spec.net.sasl.password.secretKeyRef
  let env := appendEnvFromSecretKeyRef env "KAFKA_NET_SASL_TYPE"
    args.source.spec.net.sasl.type.secretKeyRef
  let env := appendEnvFromSecretKeyRef env "KAFKA_NET_TLS_CERT"
    args.source.spec.net.tls.cert.secretKeyRef
  let env := appendEnvFromSecretKeyRef env "KAFKA_NET_TLS_KEY"
    args.source.spec.net.tls.key.secretKeyRef
  let env := appendEnvFromSecretKeyRef env "KAFKA_NET_TLS_CA_CERT"
    args.source.spec.net.tls.caCert.secretKeyRef
  { objectMeta :=
      { name := deps.childName ("kafkasource-" ++ args.source.name ++ "-") args.source.uid,
        nameSpace := args.source.nameSpace,
        labels := args.labels,
        ownerReferences := [deps.newControllerRef args.source] },
    spec :=
      { selectorMatchLabels := args.labels,
        replicas := args.source.spec.consumers,
        template :=
          { labels := args.labels,
            spec :=
              { volumes := [],
                initContainers := [],
                containers :=
                  [{ name := "receive-adapter",
                     image := args.image,
                     env := env,
                     volumeMounts := [],
                     ports := [{ name := "metrics", containerPort := 9090 },
                               { name := "profiling", containerPort := 8008 },
                               { name := "control", containerPort := 9000 }] }] } } } }

/-! ## The secret watcher (`pkg/channel/distributed/common/config/secretwatcher.go`) -/

/-- corev1.Secret, the field `GetAuthConfigFromSecret` reads: `Data`, a
`map[string][]byte` that may be nil, as an association list read with
`List.lookup`; a byte slice is the list of its bytes, each below 256. -/
structure Secret where
  data : Option (List (String × List (Fin 256)))
  deriving DecidableEq, Repr

/-- A Go string whose content comes from arbitrary bytes, kept as the sequence
of its bytes: a Go string holds any bytes, valid UTF-8 or not, and no decoding
takes place.  The empty string is the empty sequence. -/
structure GoString where
  bytes : List (Fin 256)
  deriving DecidableEq, Repr

/-- client.KafkaSaslConfig: three Go strings. -/
structure KafkaSaslConfig where
  user : GoString
  password : GoString
  saslType : GoString
  deriving DecidableEq, Repr

/-- client.KafkaAuthConfig, the field `GetAuthConfigFromSecret` sets: `SASL`, a
pointer. -/
structure KafkaAuthConfig where
  sasl : Option KafkaSaslConfig
  deriving DecidableEq, Repr

/-- The data keys `GetAuthConfigFromSecret` takes from the package `constants`:
`KafkaSecretKeyUsername`, `KafkaSecretKeyPassword`, `KafkaSecretKeySaslType`. -/
structure SecretKeys where
  kafkaSecretKeyUsername : String
  kafkaSecretKeyPassword : String
  kafkaSecretKeySaslType : String
  deriving DecidableEq, Repr

/-- Go `string(b)` for a byte slice `b`: the string made of exactly the bytes
of `b`, in order; the nil slice and the empty slice give the empty string. -/
def bytesToString (b : List (Fin 256)) : GoString :=
  { bytes := b }

/-- Go `m[k]` on a `map[string][]byte`: the value, or the nil slice for a key
that is missing. -/
def dataAt (m : List (String × List (Fin 256))) (k : String) : List (Fin 256) :=
  match m.lookup k with
  | some b => b
  | none => []

/-- The function GetAuthConfigFromSecret: nil for a nil secret or nil `Data`,
otherwise the SASL settings read from three data keys. -/
def GetAuthConfigFromSecret (keys : SecretKeys) (secret : Option Secret) :
    Option KafkaAuthConfig :=
  match secret with
  | none => none
  | some s =>
    match s.data with
    | none => none
    | some data =>
      some
        { sasl := some
            { user := bytesToString (dataAt data keys.kafkaSecretKeyUsername),
              password := bytesToString (dataAt data keys.kafkaSecretKeyPassword),
              saslType := bytesToString (dataAt data keys.kafkaSecretKeySaslType) } }

/-! ## Accessors used to state the properties -/

/-- The env lists of the init containers of a template, in container order. -/
def WithPod.initEnvs (ps : WithPod) : List (List EnvVar) :=
  ps.spec.template.spec.initContainers.map (fun c => c.env)

/-- The env lists of the regular containers of a template, in container order. -/
def WithPod.envs (ps : WithPod) : List (List EnvVar) :=
  ps.spec.template.spec.containers.map (fun c => c.env)

/-- Every container of a template, init containers first. -/
def WithPod.allContainers (ps : WithPod) : List Container :=
  ps.spec.template.spec.initContainers ++ ps.spec.template.spec.containers

/-! ## The vocabulary as the specification lists it -/

/-- The four SASL names. -/
def saslNames : List String :=
  ["KAFKA_NET_SASL_ENABLE", "KAFKA_NET_SASL_USER", "KAFKA_NET_SASL_PASSWORD",
   "KAFKA_NET_SASL_TYPE"]

/-- The eight Kerberos names. -/
def gssapiNames : List String :=
  ["KAFKA_NET_SASL_KERBEROS_ENABLE", "KAFKA_NET_SASL_KERBEROS_KEYTAB_FILE",
   "KAFKA_NET_SASL_KERBEROS_CONFIG_FILE", "KAFKA_NET_SASL_KERBEROS_PRINCIPAL",
   "KAFKA_NET_SASL_KERBEROS_SERVICE", "KAFKA_NET_SASL_KERBEROS_REALM",
   "KAFKA_NET_SASL_KERBEROS_USERNAME", "KAFKA_NET_SASL_KERBEROS_PASSWORD"]

/-- The four TLS names. -/
def tlsNames : List String :=
  ["KAFKA_NET_TLS_ENABLE", "KAFKA_NET_TLS_CERT", "KAFKA_NET_TLS_KEY", "KAFKA_NET_TLS_CA_CERT"]

/-- The 17 fixed names: the broker list, then the SASL, Kerberos and TLS names. -/
def fixedNames : List String :=
  "KAFKA_BOOTSTRAP_SERVERS" :: (saslNames ++ gssapiNames ++ tlsNames)

/-- An env list with every entry bearing one of the names `names` dropped. -/
def dropNames (names : List String) (env : List EnvVar) : List EnvVar :=
  env.filter (fun ev => ev.name ∉ names)

/-- An env list with every entry bearing a fixed name dropped: the
specification's description of what removal does to one container. -/
def stripFixed (env : List EnvVar) : List EnvVar :=
  dropNames fixedNames env

/-! ## The entries `Do` appends, slice by slice -/

/-- An env entry carrying a secret reference and no literal. -/
def secretEnv (name : String) (ref : SecretValueFromSource) : EnvVar :=
  { name := name, value := "",
    valueFrom := some { secretKeyRef := ref.secretKeyRef, otherRef := none } }

/-- An env entry carrying a literal. -/
def literalEnv (name value : String) : EnvVar :=
  { name := name, value := value, valueFrom := none }

/-- The broker entry. -/
def bootstrapEnv (kfb : KafkaBinding) : EnvVar :=
  literalEnv "KAFKA_BOOTSTRAP_SERVERS" (stringsJoin kfb.spec.bootstrapServers ",")

/-- The four entries appended when SASL is enabled. -/
def saslEntries (s : KafkaSASLSpec) : List EnvVar :=
  [literalEnv "KAFKA_NET_SASL_ENABLE" "true",
   secretEnv "KAFKA_NET_SASL_USER" s.user,
   secretEnv "KAFKA_NET_SASL_PASSWORD" s.password,
   secretEnv "KAFKA_NET_SASL_TYPE" s.type]

/-- The entries appended for SASL. -/
def saslEnv (s : KafkaSASLSpec) : List EnvVar :=
  if s.enable then saslEntries s else []

/-- The entries appended for Kerberos. -/
def gssapiEnv (g : KafkaGSSAPISpec) : List EnvVar :=
  if g.enable then
    (if g.keyTab.secretKeyRef ≠ none then
      [literalEnv "KAFKA_NET_SASL_KERBEROS_KEYTAB_FILE" "/etc/krb5.keytab"] else []) ++
    (if g.config.secretKeyRef ≠ none then
      [literalEnv "KAFKA_NET_SASL_KERBEROS_CONFIG_FILE" "/etc/krb5.conf"] else []) ++
    [literalEnv "KAFKA_NET_SASL_KERBEROS_ENABLE" "true",
     secretEnv "KAFKA_NET_SASL_KERBEROS_PRINCIPAL" g.principal,
     secretEnv "KAFKA_NET_SASL_KERBEROS_SERVICE" g.service,
     secretEnv "KAFKA_NET_SASL_KERBEROS_REALM" g.realm,
     secretEnv "KAFKA_NET_SASL_KERBEROS_USERNAME" g.username,
     secretEnv "KAFKA_NET_SASL_KERBEROS_PASSWORD" g.password]
  else []

/-- The four entries appended when TLS is enabled. -/
def tlsEntries (t : KafkaTLSSpec) : List EnvVar :=
  [literalEnv "KAFKA_NET_TLS_ENABLE" "true",
   secretEnv "KAFKA_NET_TLS_CERT" t.cert,
   secretEnv "KAFKA_NET_TLS_KEY" t.key,
   secretEnv "KAFKA_NET_TLS_CA_CERT" t.caCert]

/-- The entries appended for TLS. -/
def tlsEnv (t : KafkaTLSSpec) : List EnvVar :=
  if t.enable then tlsEntries t else []

/-- Everything `Do` appends to the env of one container. -/
def injectedEnv (kfb : KafkaBinding) : List EnvVar :=
  bootstrapEnv kfb :: (saslEnv kfb.spec.net.sasl ++ gssapiEnv kfb.spec.net.gssapi ++
    tlsEnv kfb.spec.net.tls)

/-- The keytab mount built by `Do`. -/
def keytabMount : VolumeMount :=
  { name := "krb5.keytab", readOnly := false, mountPath := "/etc/", subPath := "" }

/-- The Kerberos configuration mount built by `Do`. -/
def configMount : VolumeMount :=
  { name := "krb5.conf", readOnly := false, mountPath := "/etc/", subPath := "" }

/-- Everything `Do` appends to the volume mounts of one container. -/
def injectedMounts (g : KafkaGSSAPISpec) : List VolumeMount :=
  if g.enable then
    (if g.keyTab.secretKeyRef ≠ none then [keytabMount] else []) ++
    (if g.config.secretKeyRef ≠ none then [configMount] else [])
  else []

/-! ## Concrete bindings and templates -/

/-- A reference to key `key` of secret `name`. -/
def refTo (name key : String) : SecretValueFromSource :=
  { secretKeyRef := some { name := name, key := key, optional := none } }

/-- An absent reference. -/
def noRef : SecretValueFromSource :=
  { secretKeyRef := none }

/-- SASL switched off, no references. -/
def saslOff : KafkaSASLSpec :=
  { enable := false, user := noRef, password := noRef, type := noRef }

/-- Kerberos switched off, no references. -/
def gssapiOff : KafkaGSSAPISpec :=
  { enable := false, keyTab := noRef, config := noRef, principal := noRef, service := noRef,
    realm := noRef, username := noRef, password := noRef }

/-- TLS switched off, no references. -/
def tlsOff : KafkaTLSSpec :=
  { enable := false, cert := noRef, key := noRef, caCert := noRef }

/-- SASL with its three references into secret `s1`. -/
def saslFull : KafkaSASLSpec :=
  { enable := true, user := refTo "s1" "u", password := refTo "s1" "p", type := refTo "s1" "t" }

/-- TLS with its three references into secret `s2`. -/
def tlsFull : KafkaTLSSpec :=
  { enable := true, cert := refTo "s2" "crt", key := refTo "s2" "key",
    caCert := refTo "s2" "ca" }

/-- Two brokers, SASL only, every SASL reference present. -/
def saslOnly : KafkaBinding :=
  { spec := { bootstrapServers := ["b1:9092", "b2:9092"],
              net := { sasl := saslFull, gssapi := gssapiOff, tls := tlsOff } } }

/-- One broker, TLS only. -/
def tlsOnly : KafkaBinding :=
  { spec := { bootstrapServers := ["b3:9093"],
              net := { sasl := saslOff, gssapi := gssapiOff, tls := tlsFull } } }

/-- A container without env and without mounts. -/
def bareContainer : Container :=
  { name := "user-container", image := "img", env := [], volumeMounts := [] }

/-- A template without fixed-name entries: an init container with one foreign
entry, a regular container with no env, no volumes. -/
def cleanTemplate : WithPod :=
  { spec := { template := { spec :=
      { volumes := [],
        initContainers :=
          [{ name := "init", image := "img", env := [literalEnv "FOO" "1"], volumeMounts := [] }],
        containers := [bareContainer] } } } }

/-- A template with a single container that has no env. -/
def bareTemplate : WithPod :=
  { spec := { template := { spec :=
      { volumes := [], initContainers := [], containers := [bareContainer] } } } }

/-- Two brokers, SASL enabled with the user reference absent. -/
def saslNoUser : KafkaBinding :=
  { spec := { bootstrapServers := ["b1:9092", "b2:9092"],
              net := { sasl := { saslFull with user := noRef },
                       gssapi := gssapiOff, tls := tlsOff } } }

/-- Kerberos enabled with the keytab and the configuration references present. -/
def gssapiBoth : KafkaGSSAPISpec :=
  { gssapiOff with enable := true, keyTab := refTo "krb" "keytab", config := refTo "krb" "conf" }

/-- One broker, Kerberos only, keytab and configuration present. -/
def krbBoth : KafkaBinding :=
  { spec := { bootstrapServers := ["b1:9092"],
              net := { sasl := saslOff, gssapi := gssapiBoth, tls := tlsOff } } }

/-- One broker, Kerberos only, keytab absent and configuration present. -/
def krbConfigOnly : KafkaBinding :=
  { spec := { bootstrapServers := ["b1:9092"],
              net := { sasl := saslOff,
                       gssapi := { gssapiBoth with keyTab := noRef },
                       tls := tlsOff } } }

/-- The binding `kfb` with its SASL block replaced. -/
def withSASL (kfb : KafkaBinding) (s : KafkaSASLSpec) : KafkaBinding :=
  { kfb with spec.net.sasl := s }

/-- The binding `kfb` with its Kerberos block replaced. -/
def withGSSAPI (kfb : KafkaBinding) (g : KafkaGSSAPISpec) : KafkaBinding :=
  { kfb with spec.net.gssapi := g }

/-- The binding `kfb` with its TLS block replaced. -/
def withTLS (kfb : KafkaBinding) (t : KafkaTLSSpec) : KafkaBinding :=
  { kfb with spec.net.tls := t }

/-- The volume-mount lists of the init containers of a template. -/
def WithPod.initMounts (ps : WithPod) : List (List VolumeMount) :=
  ps.spec.template.spec.initContainers.map (fun c => c.volumeMounts)

/-- The volume-mount lists of the regular containers of a template. -/
def WithPod.mounts (ps : WithPod) : List (List VolumeMount) :=
  ps.spec.template.spec.containers.map (fun c => c.volumeMounts)

/-- The template after `n` successive applications of `Do` with one binding. -/
def doTimes (kfb : KafkaBinding) : Nat → WithPod → WithPod
  | 0, ps => ps
  | n + 1, ps => kfb.Do (doTimes kfb n ps)

/-- The number of volume mounts of a list that bear the name `name`. -/
def countMounts (name : String) (m : List VolumeMount) : Nat :=
  m.countP (fun vm => vm.name = name)

/-- Two brokers, every mechanism enabled, every reference present. -/
def allOn : KafkaBinding :=
  { spec := { bootstrapServers := ["b1:9092", "b2:9092"],
              net := { sasl := saslFull,
                       gssapi := { enable := true, keyTab := refTo "krb" "keytab",
                                   config := refTo "krb" "conf",
                                   principal := refTo "krb" "principal",
                                   service := refTo "krb" "service",
                                   realm := refTo "krb" "realm",
                                   username := refTo "krb" "username",
                                   password := refTo "krb" "password" },
                       tls := tlsFull } } }

/-- A template whose only container carries foreign entries and stale entries
with fixed names, two of them for the broker list. -/
def staleTemplate : WithPod :=
  { spec := { template := { spec :=
      { volumes := [],
        initContainers := [],
        containers :=
          [{ name := "user-container", image := "img",
             env := [literalEnv "KAFKA_BOOTSTRAP_SERVERS" "old:9092",
                     literalEnv "FOO" "1",
                     literalEnv "KAFKA_BOOTSTRAP_SERVERS" "older:9092",
                     literalEnv "KAFKA_NET_TLS_ENABLE" "true",
                     literalEnv "BAR" "2"],
             volumeMounts := [] }] } } } }

/-- Data keys named username, password and sasltype. -/
def plainKeys : SecretKeys :=
  { kafkaSecretKeyUsername := "username", kafkaSecretKeyPassword := "password",
    kafkaSecretKeySaslType := "sasltype" }

/-- A secret with the bytes of "bob" under username, of "pw" under password and
nothing under sasltype. -/
def userPasswordSecret : Secret :=
  { data := some [("username", [98, 111, 98]), ("password", [112, 119])] }

/-- A secret whose username is the two bytes c3 a9 (the UTF-8 encoding of one
accented letter) and whose password is the single byte ff, which is not valid
UTF-8. -/
def nonAsciiSecret : Secret :=
  { data := some [("username", [195, 169]), ("password", [255])] }

/-! ## Lemmas about the loops -/

theorem doInitContainer_eq_doContainer : doInitContainer = doContainer := rfl

theorem undoInitContainer_eq_undoContainer : undoInitContainer = undoContainer := rfl

theorem pathJoin_keytab : pathJoin ["/etc/", "krb5.keytab"] = "/etc/krb5.keytab" := by decide

theorem pathJoin_config : pathJoin ["/etc/", "krb5.conf"] = "/etc/krb5.conf" := by decide

theorem mem_undoCaseNames_iff (n : String) : n ∈ undoCaseNames ↔ n ∈ fixedNames := by
  simp only [undoCaseNames, fixedNames, saslNames, gssapiNames, tlsNames, List.cons_append,
    List.nil_append, List.mem_cons, List.mem_singleton, List.not_mem_nil, or_false]
  tauto

theorem foldl_keep_eq_filter {α : Type} (p : α → Prop) [DecidablePred p] (l acc : List α) :
    l.foldl (fun env ev => if p ev then env else env ++ [ev]) acc
      = acc ++ l.filter (fun ev => ¬ p ev) := by
  induction l generalizing acc with
  | nil => simp
  | cons a l ih =>
    by_cases h : p a
    · simp [List.foldl_cons, h, ih]
    · simp [List.foldl_cons, h, ih]

theorem undoContainer_env (c : Container) : (undoContainer c).env = stripFixed c.env := by
  unfold undoContainer
  split
  · next h =>
    have : c.env = [] := List.length_eq_zero.mp h
    simp [this, stripFixed, dropNames]
  · simp only [foldl_keep_eq_filter, List.nil_append, stripFixed, dropNames]
    apply List.filter_congr
    intro ev _
    simp [mem_undoCaseNames_iff]

theorem undoContainer_eq (c : Container) :
    undoContainer c = { c with env := stripFixed c.env } := by
  rw [← undoContainer_env]
  unfold undoContainer
  split <;> rfl

theorem doContainer_env (kfb : KafkaBinding) (c : Container) :
    (doContainer kfb c).env = c.env ++ injectedEnv kfb := by
  cases h1 : kfb.spec.net.sasl.enable <;> cases h2 : kfb.spec.net.gssapi.enable <;>
  cases h3 : kfb.spec.net.gssapi.keyTab.secretKeyRef <;>
  cases h4 : kfb.spec.net.gssapi.config.secretKeyRef <;>
  cases h5 : kfb.spec.net.tls.enable <;>
  simp [doContainer, injectedEnv, saslEnv, gssapiEnv, tlsEnv, saslEntries, tlsEntries,
    bootstrapEnv, literalEnv, secretEnv, pathJoin_keytab, pathJoin_config, h1, h2, h3, h4, h5]

theorem doContainer_volumeMounts (kfb : KafkaBinding) (c : Container) :
    (doContainer kfb c).volumeMounts = c.volumeMounts ++ injectedMounts kfb.spec.net.gssapi := by
  cases h1 : kfb.spec.net.sasl.enable <;> cases h2 : kfb.spec.net.gssapi.enable <;>
  cases h3 : kfb.spec.net.gssapi.keyTab.secretKeyRef <;>
  cases h4 : kfb.spec.net.gssapi.config.secretKeyRef <;>
  cases h5 : kfb.spec.net.tls.enable <;>
  simp [doContainer, injectedMounts, keytabMount, configMount, h1, h2, h3, h4, h5]

theorem Undo_initContainers (kfb : KafkaBinding) (ps : WithPod) :
    (kfb.Undo ps).spec.template.spec.initContainers
      = ps.spec.template.spec.initContainers.map undoContainer := rfl

theorem Undo_containers (kfb : KafkaBinding) (ps : WithPod) :
    (kfb.Undo ps).spec.template.spec.containers
      = ps.spec.template.spec.containers.map undoContainer := rfl

theorem Undo_volumes (kfb : KafkaBinding) (ps : WithPod) :
    (kfb.Undo ps).spec.template.spec.volumes = ps.spec.template.spec.volumes := rfl

theorem Do_initContainers (kfb : KafkaBinding) (ps : WithPod) :
    (kfb.Do ps).spec.template.spec.initContainers
      = ps.spec.template.spec.initContainers.map (fun c => doContainer kfb (undoContainer c)) := by
  simp [KafkaBinding.Do, KafkaBinding.Undo, doLocalSpec, List.map_map, Function.comp_def,
    doInitContainer_eq_doContainer, undoInitContainer_eq_undoContainer]

theorem Do_containers (kfb : KafkaBinding) (ps : WithPod) :
    (kfb.Do ps).spec.template.spec.containers
      = ps.spec.template.spec.containers.map (fun c => doContainer kfb (undoContainer c)) := by
  simp [KafkaBinding.Do, KafkaBinding.Undo, doLocalSpec, List.map_map, Function.comp_def]

theorem Do_volumes (kfb : KafkaBinding) (ps : WithPod) :
    (kfb.Do ps).spec.template.spec.volumes = ps.spec.template.spec.volumes := rfl

theorem doLocalSpec_volumes (kfb : KafkaBinding) (ps : WithPod) :
    (doLocalSpec kfb ps).volumes = doVolumes kfb ps.spec.template.spec.volumes := rfl

theorem Undo_initEnvs (kfb : KafkaBinding) (ps : WithPod) :
    (kfb.Undo ps).initEnvs = ps.initEnvs.map stripFixed := by
  simp [WithPod.initEnvs, Undo_initContainers, List.map_map, Function.comp_def,
    undoContainer_env]

theorem Undo_envs (kfb : KafkaBinding) (ps : WithPod) :
    (kfb.Undo ps).envs = ps.envs.map stripFixed := by
  simp [WithPod.envs, Undo_containers, List.map_map, Function.comp_def, undoContainer_env]

theorem Do_initEnvs (kfb : KafkaBinding) (ps : WithPod) :
    (kfb.Do ps).initEnvs = ps.initEnvs.map (fun env => stripFixed env ++ injectedEnv kfb) := by
  simp [WithPod.initEnvs, Do_initContainers, List.map_map, Function.comp_def,
    doContainer_env, undoContainer_env]

theorem Do_envs (kfb : KafkaBinding) (ps : WithPod) :
    (kfb.Do ps).envs = ps.envs.map (fun env => stripFixed env ++ injectedEnv kfb) := by
  simp [WithPod.envs, Do_containers, List.map_map, Function.comp_def,
    doContainer_env, undoContainer_env]

theorem injectedEnv_names (kfb : KafkaBinding) :
    ∀ ev ∈ injectedEnv kfb, ev.name ∈ fixedNames := by
  cases h1 : kfb.spec.net.sasl.enable <;> cases h2 : kfb.spec.net.gssapi.enable <;>
  cases h3 : kfb.spec.net.gssapi.keyTab.secretKeyRef <;>
  cases h4 : kfb.spec.net.gssapi.config.secretKeyRef <;>
  cases h5 : kfb.spec.net.tls.enable <;>
  simp [injectedEnv, saslEnv, gssapiEnv, tlsEnv, saslEntries, tlsEntries, bootstrapEnv,
    literalEnv, secretEnv, fixedNames, saslNames, gssapiNames, tlsNames, h1, h2, h3, h4, h5]

theorem stripFixed_append (a b : List EnvVar) :
    stripFixed (a ++ b) = stripFixed a ++ stripFixed b := by
  simp [stripFixed, dropNames]

theorem stripFixed_injectedEnv (kfb : KafkaBinding) : stripFixed (injectedEnv kfb) = [] := by
  simp only [stripFixed, dropNames, List.filter_eq_nil_iff]
  intro ev hev
  simpa using injectedEnv_names kfb ev hev

theorem stripFixed_idem (env : List EnvVar) : stripFixed (stripFixed env) = stripFixed env := by
  simp [stripFixed, dropNames, List.filter_filter]

theorem stripFixed_eq_self (env : List EnvVar) (h : ∀ ev ∈ env, ev.name ∉ fixedNames) :
    stripFixed env = env := by
  simp only [stripFixed, dropNames, List.filter_eq_self]
  intro ev hev
  simpa using h ev hev

theorem stripFixed_do (kfb : KafkaBinding) (env : List EnvVar) :
    stripFixed (stripFixed env ++ injectedEnv kfb) = stripFixed env := by
  rw [stripFixed_append, stripFixed_idem, stripFixed_injectedEnv, List.append_nil]

theorem undoContainer_volumeMounts (c : Container) :
    (undoContainer c).volumeMounts = c.volumeMounts := by
  rw [undoContainer_eq]

theorem Do_initMounts (kfb : KafkaBinding) (ps : WithPod) :
    (kfb.Do ps).initMounts
      = ps.initMounts.map (fun m => m ++ injectedMounts kfb.spec.net.gssapi) := by
  simp [WithPod.initMounts, Do_initContainers, List.map_map, Function.comp_def,
    doContainer_volumeMounts, undoContainer_volumeMounts]

theorem Do_mounts (kfb : KafkaBinding) (ps : WithPod) :
    (kfb.Do ps).mounts
      = ps.mounts.map (fun m => m ++ injectedMounts kfb.spec.net.gssapi) := by
  simp [WithPod.mounts, Do_containers, List.map_map, Function.comp_def,
    doContainer_volumeMounts, undoContainer_volumeMounts]

theorem Do_allContainers_env (kfb : KafkaBinding) (ps : WithPod) (c : Container)
    (hc : c ∈ (kfb.Do ps).allContainers) :
    ∃ c0 ∈ ps.allContainers, c.env = stripFixed c0.env ++ injectedEnv kfb := by
  simp only [WithPod.allContainers, Do_initContainers, Do_containers, List.mem_append,
    List.mem_map] at hc ⊢
  rcases hc with ⟨c0, h0, rfl⟩ | ⟨c0, h0, rfl⟩
  · exact ⟨c0, Or.inl h0, by rw [doContainer_env, undoContainer_env]⟩
  · exact ⟨c0, Or.inr h0, by rw [doContainer_env, undoContainer_env]⟩

theorem dropNames_append (names : List String) (a b : List EnvVar) :
    dropNames names (a ++ b) = dropNames names a ++ dropNames names b := by
  simp [dropNames]

theorem dropNames_saslEnv (s : KafkaSASLSpec) : dropNames saslNames (saslEnv s) = [] := by
  cases h : s.enable <;>
  simp [dropNames, saslEnv, saslEntries, saslNames, literalEnv, secretEnv, h]

theorem dropNames_gssapiEnv (g : KafkaGSSAPISpec) : dropNames gssapiNames (gssapiEnv g) = [] := by
  cases h1 : g.enable <;> cases h2 : g.keyTab.secretKeyRef <;>
  cases h3 : g.config.secretKeyRef <;>
  simp [dropNames, gssapiEnv, gssapiNames, literalEnv, secretEnv, h1, h2, h3]

theorem dropNames_tlsEnv (t : KafkaTLSSpec) : dropNames tlsNames (tlsEnv t) = [] := by
  cases h : t.enable <;>
  simp [dropNames, tlsEnv, tlsEntries, tlsNames, literalEnv, secretEnv, h]

theorem injectedEnv_cons (kfb : KafkaBinding) :
    injectedEnv kfb = [bootstrapEnv kfb] ++ saslEnv kfb.spec.net.sasl ++
      gssapiEnv kfb.spec.net.gssapi ++ tlsEnv kfb.spec.net.tls := by
  simp [injectedEnv]

theorem dropNames_stripFixed_do (names : List String) (k1 k2 : KafkaBinding)
    (h : dropNames names (injectedEnv k1) = dropNames names (injectedEnv k2))
    (envs : List (List EnvVar)) :
    (envs.map (fun env => stripFixed env ++ injectedEnv k1)).map (dropNames names)
      = (envs.map (fun env => stripFixed env ++ injectedEnv k2)).map (dropNames names) := by
  simp [List.map_map, Function.comp_def, dropNames_append, h]

theorem dropNames_injectedEnv_withSASL (kfb : KafkaBinding) (s : KafkaSASLSpec) :
    dropNames saslNames (injectedEnv (withSASL kfb s))
      = dropNames saslNames (injectedEnv kfb) := by
  simp only [injectedEnv_cons, dropNames_append, dropNames_saslEnv]
  rfl

theorem dropNames_injectedEnv_withGSSAPI (kfb : KafkaBinding) (g : KafkaGSSAPISpec) :
    dropNames gssapiNames (injectedEnv (withGSSAPI kfb g))
      = dropNames gssapiNames (injectedEnv kfb) := by
  simp only [injectedEnv_cons, dropNames_append, dropNames_gssapiEnv]
  rfl

theorem dropNames_injectedEnv_withTLS (kfb : KafkaBinding) (t : KafkaTLSSpec) :
    dropNames tlsNames (injectedEnv (withTLS kfb t))
      = dropNames tlsNames (injectedEnv kfb) := by
  simp only [injectedEnv_cons, dropNames_append, dropNames_tlsEnv]
  rfl

theorem injectedEnv_tls_on (kfb : KafkaBinding) (t : KafkaTLSSpec) :
    injectedEnv (withTLS kfb { t with enable := true })
      = injectedEnv (withTLS kfb { t with enable := false }) ++ tlsEntries t := by
  simp [injectedEnv, withTLS, tlsEnv, tlsEntries, bootstrapEnv]

/-! ## The properties -/

/-- C1: env idempotency of `Do`.  For every binding and every pod template,
every init container and every regular container has the same env list (same
entries, same order) after `Do` applied twice as after `Do` applied once. -/
theorem C1_do_env_idempotent (kfb : KafkaBinding) (ps : WithPod) :
    (kfb.Do (kfb.Do ps)).initEnvs = (kfb.Do ps).initEnvs ∧
    (kfb.Do (kfb.Do ps)).envs = (kfb.Do ps).envs := by
  constructor
  · rw [Do_initEnvs kfb (kfb.Do ps), Do_initEnvs kfb ps]
    simp [List.map_map, Function.comp_def, stripFixed_do]
  · rw [Do_envs kfb (kfb.Do ps), Do_envs kfb ps]
    simp [List.map_map, Function.comp_def, stripFixed_do]

/-- C2: env round trip.  For every binding and every pod template in which no
container, init or regular, has an env entry bearing one of the 17 fixed names,
`Do` followed by `Undo` gives every container its original env list back; in
particular a container that had no env has an empty env list afterwards. -/
theorem C2_undo_do_env_round_trip (kfb : KafkaBinding) (ps : WithPod)
    (h : ∀ c ∈ ps.allContainers, ∀ ev ∈ c.env, ev.name ∉ fixedNames) :
    (kfb.Undo (kfb.Do ps)).initEnvs = ps.initEnvs ∧
    (kfb.Undo (kfb.Do ps)).envs = ps.envs ∧
    (∀ i : Nat, ps.initEnvs[i]? = some [] → (kfb.Undo (kfb.Do ps)).initEnvs[i]? = some []) ∧
    (∀ i : Nat, ps.envs[i]? = some [] → (kfb.Undo (kfb.Do ps)).envs[i]? = some []) := by
  have hi : (kfb.Undo (kfb.Do ps)).initEnvs = ps.initEnvs := by
    rw [Undo_initEnvs, Do_initEnvs]
    simp only [List.map_map, Function.comp_def, stripFixed_do, WithPod.initEnvs]
    conv_rhs => rw [← List.map_id (List.map (fun c => c.env) ps.spec.template.spec.initContainers)]
    simp only [List.map_map, Function.comp_def, id]
    apply List.map_congr_left
    intro c hc
    exact stripFixed_eq_self c.env (h c (List.mem_append_left _ hc))
  have hr : (kfb.Undo (kfb.Do ps)).envs = ps.envs := by
    rw [Undo_envs, Do_envs]
    simp only [List.map_map, Function.comp_def, stripFixed_do, WithPod.envs]
    conv_rhs => rw [← List.map_id (List.map (fun c => c.env) ps.spec.template.spec.containers)]
    simp only [List.map_map, Function.comp_def, id]
    apply List.map_congr_left
    intro c hc
    exact stripFixed_eq_self c.env (h c (List.mem_append_right _ hc))
  refine ⟨hi, hr, ?_, ?_⟩
  · intro i hi0
    rw [hi]
    exact hi0
  · intro i hr0
    rw [hr]
    exact hr0

/-- Witness of C2: SASL-only binding on a template without fixed-name entries. -/
theorem C2_undo_do_env_round_trip_witness :
    (∀ c ∈ cleanTemplate.allContainers, ∀ ev ∈ c.env, ev.name ∉ fixedNames) ∧
    ((saslOnly.Undo (saslOnly.Do cleanTemplate)).initEnvs = cleanTemplate.initEnvs ∧
     (saslOnly.Undo (saslOnly.Do cleanTemplate)).envs = cleanTemplate.envs ∧
     (∀ i : Nat, cleanTemplate.initEnvs[i]? = some [] →
        (saslOnly.Undo (saslOnly.Do cleanTemplate)).initEnvs[i]? = some []) ∧
     (∀ i : Nat, cleanTemplate.envs[i]? = some [] →
        (saslOnly.Undo (saslOnly.Do cleanTemplate)).envs[i]? = some [])) :=
  ⟨by decide, C2_undo_do_env_round_trip saslOnly cleanTemplate (by decide)⟩

/-- C3: `Undo` is exactly a name filter.  For every pod template, every init
container and every regular container keeps its position and every field but
`env`, and its env list is the original one with precisely the entries dropped
whose name is one of the 17 fixed names, the other entries unmodified and in
their original order; a container with an empty env list is left unchanged. -/
theorem C3_undo_is_name_filter (kfb : KafkaBinding) (ps : WithPod) :
    (kfb.Undo ps).spec.template.spec.initContainers
      = ps.spec.template.spec.initContainers.map
          (fun c => { c with env := c.env.filter (fun ev => ev.name ∉ fixedNames) }) ∧
    (kfb.Undo ps).spec.template.spec.containers
      = ps.spec.template.spec.containers.map
          (fun c => { c with env := c.env.filter (fun ev => ev.name ∉ fixedNames) }) ∧
    (∀ c : Container, c.env = [] → undoInitContainer c = c ∧ undoContainer c = c) ∧
    fixedNames.length = 17 ∧ fixedNames.Nodup := by
  refine ⟨?_, ?_, ?_, by decide, by decide⟩
  · rw [Undo_initContainers]
    apply List.map_congr_left
    intro c _
    exact undoContainer_eq c
  · rw [Undo_containers]
    apply List.map_congr_left
    intro c _
    exact undoContainer_eq c
  · intro c hc
    have : undoContainer c = c := by
      rw [undoContainer_eq, hc]
      cases c
      simp_all [stripFixed, dropNames]
    exact ⟨this, this⟩

/-- C4, the code at a binding with SASL enabled and no user reference, applied
to a single container without env: the env still holds an entry named
KAFKA_NET_SASL_USER, whose `ValueFrom` points to a source with a nil
`SecretKeyRef`; the entries of the references that are present follow it. -/
theorem C4_absent_sasl_user_ref_is_emitted :
    (saslNoUser.Do bareTemplate).envs =
      [[{ name := "KAFKA_BOOTSTRAP_SERVERS", value := "b1:9092,b2:9092", valueFrom := none },
        { name := "KAFKA_NET_SASL_ENABLE", value := "true", valueFrom := none },
        { name := "KAFKA_NET_SASL_USER", value := "",
          valueFrom := some { secretKeyRef := none, otherRef := none } },
        { name := "KAFKA_NET_SASL_PASSWORD", value := "",
          valueFrom := some { secretKeyRef := some { name := "s1", key := "p", optional := none },
                              otherRef := none } },
        { name := "KAFKA_NET_SASL_TYPE", value := "",
          valueFrom := some { secretKeyRef := some { name := "s1", key := "t", optional := none },
                              otherRef := none } }]] := by
  decide

/-- C5, the code at a binding with Kerberos enabled and both the keytab and the
configuration references present, applied to a template without volumes: the
local copy `spec` of `Do` ends with the two volumes appended, the template the
caller holds still has no volume. -/
theorem C5_volumes_stay_in_local_copy :
    (doLocalSpec krbBoth (krbBoth.Undo bareTemplate)).volumes =
      [{ name := "krb5.keytab",
         volumeSource :=
           { secret := some { secretName := "krb",
                              items := [{ key := "keytab", path := "krb5.keytab", mode := none }],
                              defaultMode := none, optional := none },
             otherSource := none } },
       { name := "krb5.conf",
         volumeSource :=
           { secret := some { secretName := "krb",
                              items := [{ key := "conf", path := "krb5.conf", mode := none }],
                              defaultMode := none, optional := none },
             otherSource := none } }] ∧
    (krbBoth.Do bareTemplate).spec.template.spec.volumes = [] := by
  decide

/-- C6: convergence after a binding update.  For every pair of bindings `s1`,
`s2` and every pod template, each container's env list after `Do` of `s2` on
the result of `Do` of `s1` equals its env list after `Do` of `s2` on the
template itself. -/
theorem C6_do_converges_after_update (s1 s2 : KafkaBinding) (ps : WithPod) :
    (s2.Do (s1.Do ps)).initEnvs = (s2.Do ps).initEnvs ∧
    (s2.Do (s1.Do ps)).envs = (s2.Do ps).envs := by
  constructor
  · rw [Do_initEnvs s2 (s1.Do ps), Do_initEnvs s1 ps, Do_initEnvs s2 ps]
    simp [List.map_map, Function.comp_def, stripFixed_do]
  · rw [Do_envs s2 (s1.Do ps), Do_envs s1 ps, Do_envs s2 ps]
    simp [List.map_map, Function.comp_def, stripFixed_do]

/-- C7: determinism of the injected env.  For every binding there is one list
`L` of env entries such that, for every pod template, the env of every init
container and of every regular container after `Do` is its original env with
the entries bearing one of the 17 fixed names removed, followed by `L`. -/
theorem C7_injected_env_deterministic (kfb : KafkaBinding) :
    ∃ L : List EnvVar, ∀ ps : WithPod,
      (kfb.Do ps).initEnvs
        = ps.initEnvs.map (fun env => env.filter (fun ev => ev.name ∉ fixedNames) ++ L) ∧
      (kfb.Do ps).envs
        = ps.envs.map (fun env => env.filter (fun ev => ev.name ∉ fixedNames) ++ L) :=
  ⟨injectedEnv kfb, fun ps => ⟨Do_initEnvs kfb ps, Do_envs kfb ps⟩⟩

/-- C8: SASL-only output, exact order.  For every binding with SASL enabled,
Kerberos and TLS disabled and the SASL user, password and type references
present, every container (init or regular) that had no env has after `Do`
exactly five entries, in this order: KAFKA_BOOTSTRAP_SERVERS with the broker
addresses joined with ',' as a literal, KAFKA_NET_SASL_ENABLE with the literal
"true", then KAFKA_NET_SASL_USER, KAFKA_NET_SASL_PASSWORD and
KAFKA_NET_SASL_TYPE, each with its secret reference and no literal. -/
theorem C8_sasl_only_exact_env (kfb : KafkaBinding) (u p t : SecretKeySelector)
    (hs : kfb.spec.net.sasl.enable = true) (hg : kfb.spec.net.gssapi.enable = false)
    (ht : kfb.spec.net.tls.enable = false)
    (hu : kfb.spec.net.sasl.user.secretKeyRef = some u)
    (hp : kfb.spec.net.sasl.password.secretKeyRef = some p)
    (hty : kfb.spec.net.sasl.type.secretKeyRef = some t)
    (ps : WithPod) (i : Nat) :
    (ps.initEnvs[i]? = some [] → (kfb.Do ps).initEnvs[i]? = some
      [{ name := "KAFKA_BOOTSTRAP_SERVERS",
         value := ",".intercalate kfb.spec.bootstrapServers, valueFrom := none },
       { name := "KAFKA_NET_SASL_ENABLE", value := "true", valueFrom := none },
       { name := "KAFKA_NET_SASL_USER", value := "",
         valueFrom := some { secretKeyRef := some u, otherRef := none } },
       { name := "KAFKA_NET_SASL_PASSWORD", value := "",
         valueFrom := some { secretKeyRef := some p, otherRef := none } },
       { name := "KAFKA_NET_SASL_TYPE", value := "",
         valueFrom := some { secretKeyRef := some t, otherRef := none } }]) ∧
    (ps.envs[i]? = some [] → (kfb.Do ps).envs[i]? = some
      [{ name := "KAFKA_BOOTSTRAP_SERVERS",
         value := ",".intercalate kfb.spec.bootstrapServers, valueFrom := none },
       { name := "KAFKA_NET_SASL_ENABLE", value := "true", valueFrom := none },
       { name := "KAFKA_NET_SASL_USER", value := "",
         valueFrom := some { secretKeyRef := some u, otherRef := none } },
       { name := "KAFKA_NET_SASL_PASSWORD", value := "",
         valueFrom := some { secretKeyRef := some p, otherRef := none } },
       { name := "KAFKA_NET_SASL_TYPE", value := "",
         valueFrom := some { secretKeyRef := some t, otherRef := none } }]) := by
  have hL : injectedEnv kfb =
      [{ name := "KAFKA_BOOTSTRAP_SERVERS",
         value := ",".intercalate kfb.spec.bootstrapServers, valueFrom := none },
       { name := "KAFKA_NET_SASL_ENABLE", value := "true", valueFrom := none },
       { name := "KAFKA_NET_SASL_USER", value := "",
         valueFrom := some { secretKeyRef := some u, otherRef := none } },
       { name := "KAFKA_NET_SASL_PASSWORD", value := "",
         valueFrom := some { secretKeyRef := some p, otherRef := none } },
       { name := "KAFKA_NET_SASL_TYPE", value := "",
         valueFrom := some { secretKeyRef := some t, otherRef := none } }] := by
    simp [injectedEnv, saslEnv, gssapiEnv, tlsEnv, saslEntries, bootstrapEnv, literalEnv,
      secretEnv, stringsJoin, hs, hg, ht, hu, hp, hty]
  constructor
  · intro h
    rw [Do_initEnvs, List.getElem?_map, h, hL]
    rfl
  · intro h
    rw [Do_envs, List.getElem?_map, h, hL]
    rfl

/-- Witness of C8: servers b1:9092 and b2:9092 give the value "b1:9092,b2:9092". -/
theorem C8_sasl_only_exact_env_witness :
    (saslOnly.spec.net.sasl.enable = true ∧ saslOnly.spec.net.gssapi.enable = false ∧
      saslOnly.spec.net.tls.enable = false ∧ bareTemplate.envs[0]? = some []) ∧
    ((saslOnly.Do bareTemplate).envs[0]? = some
      [{ name := "KAFKA_BOOTSTRAP_SERVERS", value := "b1:9092,b2:9092", valueFrom := none },
       { name := "KAFKA_NET_SASL_ENABLE", value := "true", valueFrom := none },
       { name := "KAFKA_NET_SASL_USER", value := "",
         valueFrom := some { secretKeyRef := some { name := "s1", key := "u", optional := none },
                             otherRef := none } },
       { name := "KAFKA_NET_SASL_PASSWORD", value := "",
         valueFrom := some { secretKeyRef := some { name := "s1", key := "p", optional := none },
                             otherRef := none } },
       { name := "KAFKA_NET_SASL_TYPE", value := "",
         valueFrom := some { secretKeyRef := some { name := "s1", key := "t", optional := none },
                             otherRef := none } }]) :=
  ⟨by decide,
   (C8_sasl_only_exact_env saslOnly { name := "s1", key := "u", optional := none }
      { name := "s1", key := "p", optional := none } { name := "s1", key := "t", optional := none }
      rfl rfl rfl rfl rfl rfl bareTemplate 0).2 rfl⟩

/-- C9: selective omission for Kerberos.  For every binding with Kerberos
enabled, the keytab reference absent and the configuration reference present,
and every pod template: `Do` appends no volume named krb5.keytab (neither to
its local volume list, which only gains the krb5.conf volume, nor to the
template, whose volumes named krb5.keytab are those it had), every container
gains exactly one volume mount, named krb5.conf at "/etc/", and so none named
krb5.keytab, no container has an env entry named
KAFKA_NET_SASL_KERBEROS_KEYTAB_FILE, and every container has the entry
KAFKA_NET_SASL_KERBEROS_CONFIG_FILE with the literal "/etc/krb5.conf". -/
theorem C9_keytab_omitted_config_kept (kfb : KafkaBinding) (ref : SecretKeySelector)
    (ps : WithPod)
    (he : kfb.spec.net.gssapi.enable = true)
    (hk : kfb.spec.net.gssapi.keyTab.secretKeyRef = none)
    (hc : kfb.spec.net.gssapi.config.secretKeyRef = some ref) :
    (doLocalSpec kfb (kfb.Undo ps)).volumes
      = ps.spec.template.spec.volumes ++
          [{ name := "krb5.conf",
             volumeSource :=
               { secret := some { secretName := ref.name,
                                  items := [{ key := ref.key, path := "krb5.conf", mode := none }],
                                  defaultMode := none, optional := none },
                 otherSource := none } }] ∧
    (kfb.Do ps).spec.template.spec.volumes.filter (fun v => v.name = "krb5.keytab")
      = ps.spec.template.spec.volumes.filter (fun v => v.name = "krb5.keytab") ∧
    (kfb.Do ps).initMounts = ps.initMounts.map (fun m => m ++
      [{ name := "krb5.conf", readOnly := false, mountPath := "/etc/", subPath := "" }]) ∧
    (kfb.Do ps).mounts = ps.mounts.map (fun m => m ++
      [{ name := "krb5.conf", readOnly := false, mountPath := "/etc/", subPath := "" }]) ∧
    (∀ c ∈ (kfb.Do ps).allContainers,
      (∀ ev ∈ c.env, ev.name ≠ "KAFKA_NET_SASL_KERBEROS_KEYTAB_FILE") ∧
      { name := "KAFKA_NET_SASL_KERBEROS_CONFIG_FILE", value := "/etc/krb5.conf",
        valueFrom := none } ∈ c.env) := by
  have hm : injectedMounts kfb.spec.net.gssapi =
      [{ name := "krb5.conf", readOnly := false, mountPath := "/etc/", subPath := "" }] := by
    simp [injectedMounts, configMount, he, hk, hc]
  refine ⟨?_, ?_, ?_, ?_, ?_⟩
  · simp [doLocalSpec_volumes, Undo_volumes, doVolumes, configVolume, he, hk, hc]
  · rw [Do_volumes]
  · rw [Do_initMounts, hm]
  · rw [Do_mounts, hm]
  · intro c hmem
    obtain ⟨c0, _, henv⟩ := Do_allContainers_env kfb ps c hmem
    rw [henv]
    constructor
    · intro ev hev
      rcases List.mem_append.mp hev with h | h
      · have hn : ev.name ∉ fixedNames := by
          simpa [stripFixed, dropNames] using (List.mem_filter.mp h).2
        intro heq
        exact hn (by rw [heq]; decide)
      · have hall : ∀ e ∈ injectedEnv kfb, e.name ≠ "KAFKA_NET_SASL_KERBEROS_KEYTAB_FILE" := by
          cases h1 : kfb.spec.net.sasl.enable <;> cases h5 : kfb.spec.net.tls.enable <;>
          simp [injectedEnv, saslEnv, gssapiEnv, tlsEnv, saslEntries, tlsEntries, bootstrapEnv,
            literalEnv, secretEnv, he, hk, hc, h1, h5]
        exact hall ev h
    · apply List.mem_append_right
      cases h1 : kfb.spec.net.sasl.enable <;>
      simp [injectedEnv, saslEnv, gssapiEnv, tlsEnv, saslEntries, tlsEntries, bootstrapEnv,
        literalEnv, secretEnv, he, hk, hc, h1]

/-- Witness of C9: Kerberos with the configuration reference only, on a template
with an init container and a regular container. -/
theorem C9_keytab_omitted_config_kept_witness :
    (krbConfigOnly.spec.net.gssapi.enable = true ∧
      krbConfigOnly.spec.net.gssapi.keyTab.secretKeyRef = none ∧
      krbConfigOnly.spec.net.gssapi.config.secretKeyRef
        = some { name := "krb", key := "conf", optional := none }) ∧
    (krbConfigOnly.Do cleanTemplate).mounts = cleanTemplate.mounts.map (fun m => m ++
      [{ name := "krb5.conf", readOnly := false, mountPath := "/etc/", subPath := "" }]) ∧
    (∀ c ∈ (krbConfigOnly.Do cleanTemplate).allContainers,
      (∀ ev ∈ c.env, ev.name ≠ "KAFKA_NET_SASL_KERBEROS_KEYTAB_FILE") ∧
      { name := "KAFKA_NET_SASL_KERBEROS_CONFIG_FILE", value := "/etc/krb5.conf",
        valueFrom := none } ∈ c.env) :=
  ⟨by decide,
   (C9_keytab_omitted_config_kept krbConfigOnly { name := "krb", key := "conf", optional := none }
      cleanTemplate rfl rfl rfl).2.2.2.1,
   (C9_keytab_omitted_config_kept krbConfigOnly { name := "krb", key := "conf", optional := none }
      cleanTemplate rfl rfl rfl).2.2.2.2⟩

/-- C10: orthogonality of the mechanisms.  For every binding `kfb`, every pod
template and each mechanism among SASL, Kerberos and TLS: replacing that
mechanism's block of `kfb` (enable flag and references) by any other block
gives, for every init container and every regular container, the same env list
as `kfb` does once the entries bearing that mechanism's own names are removed
from both.  And switching TLS on in a binding (a SASL-only one included) gives
every container the env list it gets with TLS off, followed by exactly the four
TLS entries. -/
theorem C10_mechanisms_orthogonal (kfb : KafkaBinding) (ps : WithPod)
    (s : KafkaSASLSpec) (g : KafkaGSSAPISpec) (t : KafkaTLSSpec) :
    (((withSASL kfb s).Do ps).initEnvs.map (dropNames saslNames)
        = (kfb.Do ps).initEnvs.map (dropNames saslNames) ∧
      ((withSASL kfb s).Do ps).envs.map (dropNames saslNames)
        = (kfb.Do ps).envs.map (dropNames saslNames)) ∧
    (((withGSSAPI kfb g).Do ps).initEnvs.map (dropNames gssapiNames)
        = (kfb.Do ps).initEnvs.map (dropNames gssapiNames) ∧
      ((withGSSAPI kfb g).Do ps).envs.map (dropNames gssapiNames)
        = (kfb.Do ps).envs.map (dropNames gssapiNames)) ∧
    (((withTLS kfb t).Do ps).initEnvs.map (dropNames tlsNames)
        = (kfb.Do ps).initEnvs.map (dropNames tlsNames) ∧
      ((withTLS kfb t).Do ps).envs.map (dropNames tlsNames)
        = (kfb.Do ps).envs.map (dropNames tlsNames)) ∧
    (((withTLS kfb { t with enable := true }).Do ps).initEnvs
        = ((withTLS kfb { t with enable := false }).Do ps).initEnvs.map
            (fun env => env ++
              [{ name := "KAFKA_NET_TLS_ENABLE", value := "true", valueFrom := none },
               { name := "KAFKA_NET_TLS_CERT", value := "",
                 valueFrom := some { secretKeyRef := t.cert.secretKeyRef, otherRef := none } },
               { name := "KAFKA_NET_TLS_KEY", value := "",
                 valueFrom := some { secretKeyRef := t.key.secretKeyRef, otherRef := none } },
               { name := "KAFKA_NET_TLS_CA_CERT", value := "",
                 valueFrom := some { secretKeyRef := t.caCert.secretKeyRef,
                                     otherRef := none } }]) ∧
      ((withTLS kfb { t with enable := true }).Do ps).envs
        = ((withTLS kfb { t with enable := false }).Do ps).envs.map
            (fun env => env ++
              [{ name := "KAFKA_NET_TLS_ENABLE", value := "true", valueFrom := none },
               { name := "KAFKA_NET_TLS_CERT", value := "",
                 valueFrom := some { secretKeyRef := t.cert.secretKeyRef, otherRef := none } },
               { name := "KAFKA_NET_TLS_KEY", value := "",
                 valueFrom := some { secretKeyRef := t.key.secretKeyRef, otherRef := none } },
               { name := "KAFKA_NET_TLS_CA_CERT", value := "",
                 valueFrom := some { secretKeyRef := t.caCert.secretKeyRef,
                                     otherRef := none } }])) := by
  have htls : tlsEntries t =
      [{ name := "KAFKA_NET_TLS_ENABLE", value := "true", valueFrom := none },
       { name := "KAFKA_NET_TLS_CERT", value := "",
         valueFrom := some { secretKeyRef := t.cert.secretKeyRef, otherRef := none } },
       { name := "KAFKA_NET_TLS_KEY", value := "",
         valueFrom := some { secretKeyRef := t.key.secretKeyRef, otherRef := none } },
       { name := "KAFKA_NET_TLS_CA_CERT", value := "",
         valueFrom := some { secretKeyRef := t.caCert.secretKeyRef, otherRef := none } }] := rfl
  refine ⟨⟨?_, ?_⟩, ⟨?_, ?_⟩, ⟨?_, ?_⟩, ⟨?_, ?_⟩⟩
  · rw [Do_initEnvs, Do_initEnvs]
    exact dropNames_stripFixed_do _ _ _ (dropNames_injectedEnv_withSASL kfb s) _
  · rw [Do_envs, Do_envs]
    exact dropNames_stripFixed_do _ _ _ (dropNames_injectedEnv_withSASL kfb s) _
  · rw [Do_initEnvs, Do_initEnvs]
    exact dropNames_stripFixed_do _ _ _ (dropNames_injectedEnv_withGSSAPI kfb g) _
  · rw [Do_envs, Do_envs]
    exact dropNames_stripFixed_do _ _ _ (dropNames_injectedEnv_withGSSAPI kfb g) _
  · rw [Do_initEnvs, Do_initEnvs]
    exact dropNames_stripFixed_do _ _ _ (dropNames_injectedEnv_withTLS kfb t) _
  · rw [Do_envs, Do_envs]
    exact dropNames_stripFixed_do _ _ _ (dropNames_injectedEnv_withTLS kfb t) _
  · rw [Do_initEnvs, Do_initEnvs, injectedEnv_tls_on, ← htls]
    simp [List.map_map, Function.comp_def]
  · rw [Do_envs, Do_envs, injectedEnv_tls_on, ← htls]
    simp [List.map_map, Function.comp_def]

/-! ## Further lemmas -/

theorem mem_undoContainer_env (c : Container) (ev : EnvVar) :
    ev ∈ (undoContainer c).env ↔ ev ∈ c.env ∧ ev.name ∉ fixedNames := by
  simp [undoContainer_env, stripFixed, dropNames, List.mem_filter]

theorem doContainer_appended_names (kfb : KafkaBinding) (c : Container) (ev : EnvVar)
    (h : ev ∈ (doContainer kfb c).env.drop c.env.length) : ev.name ∈ fixedNames := by
  rw [doContainer_env, List.drop_left] at h
  exact injectedEnv_names kfb ev h

theorem allOn_appends_every_fixed_name :
    ∀ n ∈ fixedNames, ∃ ev ∈ (doContainer allOn bareContainer).env.drop bareContainer.env.length,
      ev.name = n := by
  decide

theorem stripFixed_names (env : List EnvVar) :
    ∀ ev ∈ stripFixed env, ev.name ∉ fixedNames := by
  intro ev hev
  simpa [stripFixed, dropNames] using (List.mem_filter.mp hev).2

theorem Undo_allContainers_env (kfb : KafkaBinding) (ps : WithPod) (c : Container)
    (hc : c ∈ (kfb.Undo ps).allContainers) :
    ∃ c0 ∈ ps.allContainers, c.env = stripFixed c0.env := by
  simp only [WithPod.allContainers, Undo_initContainers, Undo_containers, List.mem_append,
    List.mem_map] at hc ⊢
  rcases hc with ⟨c0, h0, rfl⟩ | ⟨c0, h0, rfl⟩
  · exact ⟨c0, Or.inl h0, undoContainer_env c0⟩
  · exact ⟨c0, Or.inr h0, undoContainer_env c0⟩

theorem countMounts_append (name : String) (a b : List VolumeMount) :
    countMounts name (a ++ b) = countMounts name a + countMounts name b := by
  simp [countMounts]

theorem countMounts_keytab_injected (g : KafkaGSSAPISpec) (he : g.enable = true)
    (hk : g.keyTab.secretKeyRef ≠ none) :
    countMounts "krb5.keytab" (injectedMounts g) = 1 := by
  cases hc : g.config.secretKeyRef <;>
  simp [countMounts, injectedMounts, keytabMount, configMount, he, hk, hc]

theorem countMounts_config_injected (g : KafkaGSSAPISpec) (he : g.enable = true)
    (hc : g.config.secretKeyRef ≠ none) :
    countMounts "krb5.conf" (injectedMounts g) = 1 := by
  cases hk : g.keyTab.secretKeyRef <;>
  simp [countMounts, injectedMounts, keytabMount, configMount, he, hk, hc]

theorem doTimes_initMounts_count (kfb : KafkaBinding) (name : String)
    (h : countMounts name (injectedMounts kfb.spec.net.gssapi) = 1) (ps : WithPod) (n : Nat) :
    (doTimes kfb n ps).initMounts.map (countMounts name)
      = ps.initMounts.map (fun m => countMounts name m + n) := by
  induction n with
  | zero => simp [doTimes]
  | succ n ih =>
    have step : (doTimes kfb (n + 1) ps).initMounts.map (countMounts name)
        = ((doTimes kfb n ps).initMounts.map (countMounts name)).map (fun k => k + 1) := by
      simp [doTimes, Do_initMounts, List.map_map, Function.comp_def, countMounts_append, h]
    rw [step, ih]
    simp [List.map_map, Function.comp_def, Nat.add_assoc]

theorem doTimes_mounts_count (kfb : KafkaBinding) (name : String)
    (h : countMounts name (injectedMounts kfb.spec.net.gssapi) = 1) (ps : WithPod) (n : Nat) :
    (doTimes kfb n ps).mounts.map (countMounts name)
      = ps.mounts.map (fun m => countMounts name m + n) := by
  induction n with
  | zero => simp [doTimes]
  | succ n ih =>
    have step : (doTimes kfb (n + 1) ps).mounts.map (countMounts name)
        = ((doTimes kfb n ps).mounts.map (countMounts name)).map (fun k => k + 1) := by
      simp [doTimes, Do_mounts, List.map_map, Function.comp_def, countMounts_append, h]
    rw [step, ih]
    simp [List.map_map, Function.comp_def, Nat.add_assoc]

theorem Undo_initMounts (kfb : KafkaBinding) (ps : WithPod) :
    (kfb.Undo ps).initMounts = ps.initMounts := by
  simp [WithPod.initMounts, Undo_initContainers, List.map_map, Function.comp_def,
    undoContainer_volumeMounts]

theorem Undo_mounts (kfb : KafkaBinding) (ps : WithPod) :
    (kfb.Undo ps).mounts = ps.mounts := by
  simp [WithPod.mounts, Undo_containers, List.map_map, Function.comp_def,
    undoContainer_volumeMounts]

theorem map_append_ne_self {α : Type} (l : List (List α)) (x : List α) (hl : l ≠ [])
    (hx : x ≠ []) : l.map (fun m => m ++ x) ≠ l := by
  cases l with
  | nil => exact absurd rfl hl
  | cons m t =>
    intro h
    simp only [List.map_cons, List.cons.injEq] at h
    exact hx (List.append_right_eq_self.mp h.1)

theorem appendEnvFromSecretKeyRef_eq (env : List EnvVar) (key : String)
    (ref : Option SecretKeySelector) :
    appendEnvFromSecretKeyRef env key ref = env ++ appendEnvFromSecretKeyRef [] key ref := by
  cases ref <;> simp [appendEnvFromSecretKeyRef]

theorem secretTail_eq (k1 k2 k3 k4 k5 k6 : String) (r1 r2 r3 r4 r5 r6 : Option SecretKeySelector) :
    [(k1, r1), (k2, r2), (k3, r3), (k4, r4), (k5, r5), (k6, r6)].filterMap
      (fun kr => kr.2.map (fun r =>
        ({ name := kr.1, value := "",
           valueFrom := some { secretKeyRef := some r, otherRef := none } } : EnvVar)))
    = appendEnvFromSecretKeyRef [] k1 r1 ++ appendEnvFromSecretKeyRef [] k2 r2 ++
      appendEnvFromSecretKeyRef [] k3 r3 ++ appendEnvFromSecretKeyRef [] k4 r4 ++
      appendEnvFromSecretKeyRef [] k5 r5 ++ appendEnvFromSecretKeyRef [] k6 r6 := by
  cases r1 <;> cases r2 <;> cases r3 <;> cases r4 <;> cases r5 <;> cases r6 <;> rfl

theorem countP_name_le_one (l : List EnvVar) (n : String)
    (h : (l.map (fun ev => ev.name)).Nodup) : l.countP (fun ev => ev.name = n) ≤ 1 := by
  have h1 := List.nodup_iff_count_le_one.mp h n
  rw [List.count_eq_countP, List.countP_map] at h1
  have h2 : l.countP (fun ev => decide (ev.name = n))
      = l.countP ((fun x => x == n) ∘ fun ev => ev.name) := by
    apply List.countP_congr
    intro ev _
    simp
  rw [h2]
  exact h1

theorem injectedEnv_names_nodup (kfb : KafkaBinding) :
    ((injectedEnv kfb).map (fun ev => ev.name)).Nodup := by
  cases h1 : kfb.spec.net.sasl.enable <;> cases h2 : kfb.spec.net.gssapi.enable <;>
  cases h3 : kfb.spec.net.gssapi.keyTab.secretKeyRef <;>
  cases h4 : kfb.spec.net.gssapi.config.secretKeyRef <;>
  cases h5 : kfb.spec.net.tls.enable <;>
  simp [injectedEnv, saslEnv, gssapiEnv, tlsEnv, saslEntries, tlsEntries, bootstrapEnv,
    literalEnv, secretEnv, h1, h2, h3, h4, h5]

theorem injectedEnv_filter_bootstrap (kfb : KafkaBinding) :
    (injectedEnv kfb).filter (fun ev => ev.name = "KAFKA_BOOTSTRAP_SERVERS")
      = [bootstrapEnv kfb] := by
  cases h1 : kfb.spec.net.sasl.enable <;> cases h2 : kfb.spec.net.gssapi.enable <;>
  cases h3 : kfb.spec.net.gssapi.keyTab.secretKeyRef <;>
  cases h4 : kfb.spec.net.gssapi.config.secretKeyRef <;>
  cases h5 : kfb.spec.net.tls.enable <;>
  simp [injectedEnv, saslEnv, gssapiEnv, tlsEnv, saslEntries, tlsEntries, bootstrapEnv,
    literalEnv, secretEnv, List.filter_cons, h1, h2, h3, h4, h5]

theorem stripFixed_filter_fixed (env : List EnvVar) (n : String) (hn : n ∈ fixedNames) :
    (stripFixed env).filter (fun ev => ev.name = n) = [] := by
  rw [List.filter_eq_nil_iff]
  intro ev hev h
  have hname : ev.name = n := by simpa using h
  exact stripFixed_names env ev hev (hname ▸ hn)

theorem stripFixed_countP_fixed (env : List EnvVar) (n : String) (hn : n ∈ fixedNames) :
    (stripFixed env).countP (fun ev => ev.name = n) = 0 := by
  rw [List.countP_eq_zero]
  intro ev hev h
  have hname : ev.name = n := by simpa using h
  exact stripFixed_names env ev hev (hname ▸ hn)

theorem undoContainer_idem (c : Container) : undoContainer (undoContainer c) = undoContainer c := by
  rw [undoContainer_eq (undoContainer c), undoContainer_eq c]
  simp [stripFixed_idem]

/-! ## The properties, continued -/

/-- C11: closed vocabulary of injection and removal.  The fixed vocabulary is
the 17 listed names; a name is one `Do` can append to a container (for some
binding), in either loop, exactly when it is in the vocabulary; an entry
survives `Undo`, in either loop, exactly when its name is not in the
vocabulary.  Hence no container has an entry with a fixed name after `Undo` of
`Do`, and both `Do` and `Undo` leave the entries with any other name as they
were: same entries, same order, in every container. -/
theorem C11_closed_vocabulary :
    fixedNames =
      ["KAFKA_BOOTSTRAP_SERVERS",
       "KAFKA_NET_SASL_ENABLE", "KAFKA_NET_SASL_USER", "KAFKA_NET_SASL_PASSWORD",
       "KAFKA_NET_SASL_TYPE",
       "KAFKA_NET_SASL_KERBEROS_ENABLE", "KAFKA_NET_SASL_KERBEROS_KEYTAB_FILE",
       "KAFKA_NET_SASL_KERBEROS_CONFIG_FILE", "KAFKA_NET_SASL_KERBEROS_PRINCIPAL",
       "KAFKA_NET_SASL_KERBEROS_SERVICE", "KAFKA_NET_SASL_KERBEROS_REALM",
       "KAFKA_NET_SASL_KERBEROS_USERNAME", "KAFKA_NET_SASL_KERBEROS_PASSWORD",
       "KAFKA_NET_TLS_ENABLE", "KAFKA_NET_TLS_CERT", "KAFKA_NET_TLS_KEY",
       "KAFKA_NET_TLS_CA_CERT"] ∧
    (∀ n : String, n ∈ fixedNames ↔
      ∃ (kfb : KafkaBinding) (c : Container),
        ∃ ev ∈ (doInitContainer kfb c).env.drop c.env.length, ev.name = n) ∧
    (∀ n : String, n ∈ fixedNames ↔
      ∃ (kfb : KafkaBinding) (c : Container),
        ∃ ev ∈ (doContainer kfb c).env.drop c.env.length, ev.name = n) ∧
    (∀ (c : Container) (ev : EnvVar),
      ev ∈ (undoInitContainer c).env ↔ ev ∈ c.env ∧ ev.name ∉ fixedNames) ∧
    (∀ (c : Container) (ev : EnvVar),
      ev ∈ (undoContainer c).env ↔ ev ∈ c.env ∧ ev.name ∉ fixedNames) ∧
    (∀ (kfb : KafkaBinding) (ps : WithPod), ∀ c ∈ (kfb.Undo (kfb.Do ps)).allContainers,
      ∀ ev ∈ c.env, ev.name ∉ fixedNames) ∧
    (∀ (kfb : KafkaBinding) (ps : WithPod),
      (kfb.Do ps).initEnvs.map (fun env => env.filter (fun ev => ev.name ∉ fixedNames))
        = ps.initEnvs.map (fun env => env.filter (fun ev => ev.name ∉ fixedNames)) ∧
      (kfb.Do ps).envs.map (fun env => env.filter (fun ev => ev.name ∉ fixedNames))
        = ps.envs.map (fun env => env.filter (fun ev => ev.name ∉ fixedNames))) ∧
    (∀ (kfb : KafkaBinding) (ps : WithPod),
      (kfb.Undo ps).initEnvs.map (fun env => env.filter (fun ev => ev.name ∉ fixedNames))
        = ps.initEnvs.map (fun env => env.filter (fun ev => ev.name ∉ fixedNames)) ∧
      (kfb.Undo ps).envs.map (fun env => env.filter (fun ev => ev.name ∉ fixedNames))
        = ps.envs.map (fun env => env.filter (fun ev => ev.name ∉ fixedNames))) := by
  have happ : ∀ n : String, n ∈ fixedNames ↔
      ∃ (kfb : KafkaBinding) (c : Container),
        ∃ ev ∈ (doContainer kfb c).env.drop c.env.length, ev.name = n := by
    intro n
    constructor
    · intro hn
      exact ⟨allOn, bareContainer, allOn_appends_every_fixed_name n hn⟩
    · rintro ⟨kfb, c, ev, hev, rfl⟩
      exact doContainer_appended_names kfb c ev hev
  have hfilter : ∀ env : List EnvVar,
      env.filter (fun ev => ev.name ∉ fixedNames) = stripFixed env := fun _ => rfl
  refine ⟨rfl, happ, happ, mem_undoContainer_env, mem_undoContainer_env, ?_, ?_, ?_⟩
  · intro kfb ps c hc ev hev
    obtain ⟨c0, _, henv⟩ := Undo_allContainers_env kfb (kfb.Do ps) c hc
    rw [henv] at hev
    exact stripFixed_names _ ev hev
  · intro kfb ps
    simp only [hfilter, Do_initEnvs, Do_envs, List.map_map, Function.comp_def, stripFixed_do,
      and_self]
  · intro kfb ps
    simp only [hfilter, Undo_initEnvs, Undo_envs, List.map_map, Function.comp_def,
      stripFixed_idem, and_self]

/-- C12: frame of `Undo`.  For every pod template, `Undo` leaves the pod-level
volume list unchanged, and the init containers and the regular containers keep
their number, their order and every field other than `env` (name, image,
volume mounts, ports): only env lists can differ. -/
theorem C12_undo_frame (kfb : KafkaBinding) (ps : WithPod) :
    (kfb.Undo ps).spec.template.spec.volumes = ps.spec.template.spec.volumes ∧
    (kfb.Undo ps).initMounts = ps.initMounts ∧
    (kfb.Undo ps).mounts = ps.mounts ∧
    (kfb.Undo ps).spec.template.spec.initContainers.length
      = ps.spec.template.spec.initContainers.length ∧
    (kfb.Undo ps).spec.template.spec.containers.length
      = ps.spec.template.spec.containers.length ∧
    (kfb.Undo ps).spec.template.spec.initContainers.map (fun c => { c with env := [] })
      = ps.spec.template.spec.initContainers.map (fun c => { c with env := [] }) ∧
    (kfb.Undo ps).spec.template.spec.containers.map (fun c => { c with env := [] })
      = ps.spec.template.spec.containers.map (fun c => { c with env := [] }) := by
  refine ⟨rfl, ?_, ?_, ?_, ?_, ?_, ?_⟩
  · simp [WithPod.initMounts, Undo_initContainers, List.map_map, Function.comp_def,
      undoContainer_volumeMounts]
  · simp [WithPod.mounts, Undo_containers, List.map_map, Function.comp_def,
      undoContainer_volumeMounts]
  · simp [Undo_initContainers]
  · simp [Undo_containers]
  · simp [Undo_initContainers, List.map_map, Function.comp_def, undoContainer_eq]
  · simp [Undo_containers, List.map_map, Function.comp_def, undoContainer_eq]

/-- C13: the Kerberos slice of one container, exact content and order.  For
every binding with Kerberos enabled and both the keytab and the configuration
references present, every container (init or regular) gets appended to its
volume mounts the mount krb5.keytab and then the mount krb5.conf, both at
"/etc/", and its env after `Do` is its filtered original env, the broker entry,
the SASL entries, then KAFKA_NET_SASL_KERBEROS_KEYTAB_FILE = "/etc/krb5.keytab",
KAFKA_NET_SASL_KERBEROS_CONFIG_FILE = "/etc/krb5.conf",
KAFKA_NET_SASL_KERBEROS_ENABLE = "true" as literals and the entries
KAFKA_NET_SASL_KERBEROS_PRINCIPAL, _SERVICE, _REALM, _USERNAME, _PASSWORD with
the binding's secret references, and last the TLS entries. -/
theorem C13_kerberos_slice_exact (kfb : KafkaBinding) (k r : SecretKeySelector) (ps : WithPod)
    (he : kfb.spec.net.gssapi.enable = true)
    (hk : kfb.spec.net.gssapi.keyTab.secretKeyRef = some k)
    (hc : kfb.spec.net.gssapi.config.secretKeyRef = some r) :
    (kfb.Do ps).initMounts = ps.initMounts.map (fun m => m ++
      [{ name := "krb5.keytab", readOnly := false, mountPath := "/etc/", subPath := "" },
       { name := "krb5.conf", readOnly := false, mountPath := "/etc/", subPath := "" }]) ∧
    (kfb.Do ps).mounts = ps.mounts.map (fun m => m ++
      [{ name := "krb5.keytab", readOnly := false, mountPath := "/etc/", subPath := "" },
       { name := "krb5.conf", readOnly := false, mountPath := "/etc/", subPath := "" }]) ∧
    (kfb.Do ps).initEnvs = ps.initEnvs.map (fun env =>
      env.filter (fun ev => ev.name ∉ fixedNames) ++
      (bootstrapEnv kfb :: saslEnv kfb.spec.net.sasl) ++
      [{ name := "KAFKA_NET_SASL_KERBEROS_KEYTAB_FILE", value := "/etc/krb5.keytab",
         valueFrom := none },
       { name := "KAFKA_NET_SASL_KERBEROS_CONFIG_FILE", value := "/etc/krb5.conf",
         valueFrom := none },
       { name := "KAFKA_NET_SASL_KERBEROS_ENABLE", value := "true", valueFrom := none },
       { name := "KAFKA_NET_SASL_KERBEROS_PRINCIPAL", value := "",
         valueFrom := some { secretKeyRef := kfb.spec.net.gssapi.principal.secretKeyRef,
                             otherRef := none } },
       { name := "KAFKA_NET_SASL_KERBEROS_SERVICE", value := "",
         valueFrom := some { secretKeyRef := kfb.spec.net.gssapi.service.secretKeyRef,
                             otherRef := none } },
       { name := "KAFKA_NET_SASL_KERBEROS_REALM", value := "",
         valueFrom := some { secretKeyRef := kfb.spec.net.gssapi.realm.secretKeyRef,
                             otherRef := none } },
       { name := "KAFKA_NET_SASL_KERBEROS_USERNAME", value := "",
         valueFrom := some { secretKeyRef := kfb.spec.net.gssapi.username.secretKeyRef,
                             otherRef := none } },
       { name := "KAFKA_NET_SASL_KERBEROS_PASSWORD", value := "",
         valueFrom := some { secretKeyRef := kfb.spec.net.gssapi.password.secretKeyRef,
                             otherRef := none } }] ++
      tlsEnv kfb.spec.net.tls) ∧
    (kfb.Do ps).envs = ps.envs.map (fun env =>
      env.filter (fun ev => ev.name ∉ fixedNames) ++
      (bootstrapEnv kfb :: saslEnv kfb.spec.net.sasl) ++
      [{ name := "KAFKA_NET_SASL_KERBEROS_KEYTAB_FILE", value := "/etc/krb5.keytab",
         valueFrom := none },
       { name := "KAFKA_NET_SASL_KERBEROS_CONFIG_FILE", value := "/etc/krb5.conf",
         valueFrom := none },
       { name := "KAFKA_NET_SASL_KERBEROS_ENABLE", value := "true", valueFrom := none },
       { name := "KAFKA_NET_SASL_KERBEROS_PRINCIPAL", value := "",
         valueFrom := some { secretKeyRef := kfb.spec.net.gssapi.principal.secretKeyRef,
                             otherRef := none } },
       { name := "KAFKA_NET_SASL_KERBEROS_SERVICE", value := "",
         valueFrom := some { secretKeyRef := kfb.spec.net.gssapi.service.secretKeyRef,
                             otherRef := none } },
       { name := "KAFKA_NET_SASL_KERBEROS_REALM", value := "",
         valueFrom := some { secretKeyRef := kfb.spec.net.gssapi.realm.secretKeyRef,
                             otherRef := none } },
       { name := "KAFKA_NET_SASL_KERBEROS_USERNAME", value := "",
         valueFrom := some { secretKeyRef := kfb.spec.net.gssapi.username.secretKeyRef,
                             otherRef := none } },
       { name := "KAFKA_NET_SASL_KERBEROS_PASSWORD", value := "",
         valueFrom := some { secretKeyRef := kfb.spec.net.gssapi.password.secretKeyRef,
                             otherRef := none } }] ++
      tlsEnv kfb.spec.net.tls) := by
  have hm : injectedMounts kfb.spec.net.gssapi =
      [{ name := "krb5.keytab", readOnly := false, mountPath := "/etc/", subPath := "" },
       { name := "krb5.conf", readOnly := false, mountPath := "/etc/", subPath := "" }] := by
    simp [injectedMounts, keytabMount, configMount, he, hk, hc]
  have hg : gssapiEnv kfb.spec.net.gssapi =
      [{ name := "KAFKA_NET_SASL_KERBEROS_KEYTAB_FILE", value := "/etc/krb5.keytab",
         valueFrom := none },
       { name := "KAFKA_NET_SASL_KERBEROS_CONFIG_FILE", value := "/etc/krb5.conf",
         valueFrom := none },
       { name := "KAFKA_NET_SASL_KERBEROS_ENABLE", value := "true", valueFrom := none },
       { name := "KAFKA_NET_SASL_KERBEROS_PRINCIPAL", value := "",
         valueFrom := some { secretKeyRef := kfb.spec.net.gssapi.principal.secretKeyRef,
                             otherRef := none } },
       { name := "KAFKA_NET_SASL_KERBEROS_SERVICE", value := "",
         valueFrom := some { secretKeyRef := kfb.spec.net.gssapi.service.secretKeyRef,
                             otherRef := none } },
       { name := "KAFKA_NET_SASL_KERBEROS_REALM", value := "",
         valueFrom := some { secretKeyRef := kfb.spec.net.gssapi.realm.secretKeyRef,
                             otherRef := none } },
       { name := "KAFKA_NET_SASL_KERBEROS_USERNAME", value := "",
         valueFrom := some { secretKeyRef := kfb.spec.net.gssapi.username.secretKeyRef,
                             otherRef := none } },
       { name := "KAFKA_NET_SASL_KERBEROS_PASSWORD", value := "",
         valueFrom := some { secretKeyRef := kfb.spec.net.gssapi.password.secretKeyRef,
                             otherRef := none } }] := by
    simp [gssapiEnv, literalEnv, secretEnv, he, hk, hc]
  have hL : ∀ env : List EnvVar, stripFixed env ++ injectedEnv kfb
      = env.filter (fun ev => ev.name ∉ fixedNames) ++
        (bootstrapEnv kfb :: saslEnv kfb.spec.net.sasl) ++
        gssapiEnv kfb.spec.net.gssapi ++ tlsEnv kfb.spec.net.tls := by
    intro env
    simp [injectedEnv, stripFixed, dropNames, List.append_assoc]
  refine ⟨?_, ?_, ?_, ?_⟩
  · rw [Do_initMounts, hm]
  · rw [Do_mounts, hm]
  · rw [Do_initEnvs, ← hg]
    exact List.map_congr_left (fun env _ => hL env)
  · rw [Do_envs, ← hg]
    exact List.map_congr_left (fun env _ => hL env)

/-- Witness of C13: every mechanism enabled and every reference present, on a
template with an init container and a regular container. -/
theorem C13_kerberos_slice_exact_witness :
    (allOn.spec.net.gssapi.enable = true ∧
      allOn.spec.net.gssapi.keyTab.secretKeyRef
        = some { name := "krb", key := "keytab", optional := none } ∧
      allOn.spec.net.gssapi.config.secretKeyRef
        = some { name := "krb", key := "conf", optional := none }) ∧
    (allOn.Do cleanTemplate).mounts = cleanTemplate.mounts.map (fun m => m ++
      [{ name := "krb5.keytab", readOnly := false, mountPath := "/etc/", subPath := "" },
       { name := "krb5.conf", readOnly := false, mountPath := "/etc/", subPath := "" }]) :=
  ⟨by decide,
   (C13_kerberos_slice_exact allOn { name := "krb", key := "keytab", optional := none }
      { name := "krb", key := "conf", optional := none } cleanTemplate rfl rfl rfl).2.1⟩

/-- C14: idempotency of `Do` on pod-level volumes.  For every binding and every
pod template, the template's volume list after `Do` applied twice equals its
volume list after `Do` applied once (each equals the volume list the template
had before). -/
theorem C14_do_volumes_idempotent (kfb : KafkaBinding) (ps : WithPod) :
    (kfb.Do (kfb.Do ps)).spec.template.spec.volumes = (kfb.Do ps).spec.template.spec.volumes ∧
    (kfb.Do ps).spec.template.spec.volumes = ps.spec.template.spec.volumes := by
  constructor
  · rw [Do_volumes kfb (kfb.Do ps)]
  · exact Do_volumes kfb ps

/-- C15: volume mounts pile up under repeated `Do`.  For every binding with
Kerberos enabled and every pod template: when the keytab reference is present,
after `n` applications of `Do` every container holds `n` more mounts named
krb5.keytab than it started with, and likewise for krb5.conf when the
configuration reference is present; with either reference present and at least
one regular container a second `Do` changes the mounts of the first; and `Undo`
after the `n` applications leaves every mount list as it is. -/
theorem C15_mounts_accumulate (kfb : KafkaBinding) (ps : WithPod) (n : Nat)
    (he : kfb.spec.net.gssapi.enable = true) :
    (kfb.spec.net.gssapi.keyTab.secretKeyRef ≠ none →
      (doTimes kfb n ps).initMounts.map (countMounts "krb5.keytab")
        = ps.initMounts.map (fun m => countMounts "krb5.keytab" m + n) ∧
      (doTimes kfb n ps).mounts.map (countMounts "krb5.keytab")
        = ps.mounts.map (fun m => countMounts "krb5.keytab" m + n)) ∧
    (kfb.spec.net.gssapi.config.secretKeyRef ≠ none →
      (doTimes kfb n ps).initMounts.map (countMounts "krb5.conf")
        = ps.initMounts.map (fun m => countMounts "krb5.conf" m + n) ∧
      (doTimes kfb n ps).mounts.map (countMounts "krb5.conf")
        = ps.mounts.map (fun m => countMounts "krb5.conf" m + n)) ∧
    ((kfb.spec.net.gssapi.keyTab.secretKeyRef ≠ none ∨
        kfb.spec.net.gssapi.config.secretKeyRef ≠ none) →
      ps.spec.template.spec.containers ≠ [] →
      (kfb.Do (kfb.Do ps)).mounts ≠ (kfb.Do ps).mounts) ∧
    (kfb.Undo (doTimes kfb n ps)).initMounts = (doTimes kfb n ps).initMounts ∧
    (kfb.Undo (doTimes kfb n ps)).mounts = (doTimes kfb n ps).mounts := by
  refine ⟨?_, ?_, ?_, Undo_initMounts _ _, Undo_mounts _ _⟩
  · intro hk
    have h1 := countMounts_keytab_injected kfb.spec.net.gssapi he hk
    exact ⟨doTimes_initMounts_count kfb _ h1 ps n, doTimes_mounts_count kfb _ h1 ps n⟩
  · intro hc
    have h1 := countMounts_config_injected kfb.spec.net.gssapi he hc
    exact ⟨doTimes_initMounts_count kfb _ h1 ps n, doTimes_mounts_count kfb _ h1 ps n⟩
  · intro hkc hne
    have hx : injectedMounts kfb.spec.net.gssapi ≠ [] := by
      intro h0
      rcases hkc with hk | hc
      · have := countMounts_keytab_injected kfb.spec.net.gssapi he hk
        rw [h0] at this
        simp [countMounts] at this
      · have := countMounts_config_injected kfb.spec.net.gssapi he hc
        rw [h0] at this
        simp [countMounts] at this
    have hl : (kfb.Do ps).mounts ≠ [] := by
      simp [WithPod.mounts, Do_containers, hne]
    rw [Do_mounts kfb (kfb.Do ps)]
    exact map_append_ne_self _ _ hl hx

/-- Witness of C15: keytab and configuration present, three applications. -/
theorem C15_mounts_accumulate_witness :
    (krbBoth.spec.net.gssapi.enable = true ∧
      krbBoth.spec.net.gssapi.keyTab.secretKeyRef ≠ none ∧
      krbBoth.spec.net.gssapi.config.secretKeyRef ≠ none ∧
      cleanTemplate.spec.template.spec.containers ≠ []) ∧
    ((doTimes krbBoth 3 cleanTemplate).initMounts.map (countMounts "krb5.keytab") = [3] ∧
      (doTimes krbBoth 3 cleanTemplate).mounts.map (countMounts "krb5.keytab") = [3]) ∧
    ((doTimes krbBoth 3 cleanTemplate).initMounts.map (countMounts "krb5.conf") = [3] ∧
      (doTimes krbBoth 3 cleanTemplate).mounts.map (countMounts "krb5.conf") = [3]) ∧
    (krbBoth.Do (krbBoth.Do cleanTemplate)).mounts ≠ (krbBoth.Do cleanTemplate).mounts ∧
    (krbBoth.Undo (doTimes krbBoth 3 cleanTemplate)).mounts
      = (doTimes krbBoth 3 cleanTemplate).mounts :=
  ⟨by decide,
   (C15_mounts_accumulate krbBoth cleanTemplate 3 rfl).1 (by decide),
   (C15_mounts_accumulate krbBoth cleanTemplate 3 rfl).2.1 (by decide),
   (C15_mounts_accumulate krbBoth cleanTemplate 3 rfl).2.2.1 (Or.inl (by decide)) (by decide),
   (C15_mounts_accumulate krbBoth cleanTemplate 3 rfl).2.2.2.2⟩

/-- C16: the function appendEnvFromSecretKeyRef.  For every env list and key, a
nil reference gives the env list back unchanged, and any other reference gives
the env list followed by exactly one entry, named `key`, carrying that secret
reference and no literal value. -/
theorem C16_appendEnvFromSecretKeyRef (env : List EnvVar) (key : String) :
    appendEnvFromSecretKeyRef env key none = env ∧
    ∀ ref : SecretKeySelector,
      appendEnvFromSecretKeyRef env key (some ref) =
        env ++ [{ name := key, value := "",
                  valueFrom := some { secretKeyRef := some ref, otherRef := none } }] :=
  ⟨rfl, fun _ => rfl⟩


/-- C17: no duplication after `Do`.  For every binding and every pod template,
whatever entries with fixed names its containers carried, every container has
after `Do` exactly one env entry named KAFKA_BOOTSTRAP_SERVERS, a literal with
the broker addresses joined with ',' (the empty string for no address), and
every name of the fixed vocabulary occurs at most once in its env. -/
theorem C17_no_duplication_after_do (kfb : KafkaBinding) (ps : WithPod) :
    (∀ c ∈ (kfb.Do ps).allContainers,
      c.env.filter (fun ev => ev.name = "KAFKA_BOOTSTRAP_SERVERS")
        = [{ name := "KAFKA_BOOTSTRAP_SERVERS",
             value := ",".intercalate kfb.spec.bootstrapServers, valueFrom := none }] ∧
      ∀ n ∈ fixedNames, c.env.countP (fun ev => ev.name = n) ≤ 1) ∧
    ",".intercalate ([] : List String) = "" := by
  refine ⟨?_, rfl⟩
  intro c hc
  obtain ⟨c0, _, henv⟩ := Do_allContainers_env kfb ps c hc
  rw [henv]
  constructor
  · rw [List.filter_append, stripFixed_filter_fixed _ _ (by decide),
      injectedEnv_filter_bootstrap]
    rfl
  · intro n hn
    rw [List.countP_append, stripFixed_countP_fixed _ _ hn, Nat.zero_add]
    exact countP_name_le_one _ _ (injectedEnv_names_nodup kfb)

/-- Witness of C17: every mechanism enabled, on a container that already
carried two broker entries and a TLS entry. -/
theorem C17_no_duplication_after_do_witness :
    (allOn.Do staleTemplate).allContainers ≠ [] ∧
    (allOn.Do staleTemplate).envs.map
        (fun env => env.filter (fun ev => ev.name = "KAFKA_BOOTSTRAP_SERVERS"))
      = [[{ name := "KAFKA_BOOTSTRAP_SERVERS", value := "b1:9092,b2:9092",
            valueFrom := none }]] ∧
    (∀ c ∈ (allOn.Do staleTemplate).allContainers,
      c.env.filter (fun ev => ev.name = "KAFKA_BOOTSTRAP_SERVERS")
        = [{ name := "KAFKA_BOOTSTRAP_SERVERS", value := "b1:9092,b2:9092",
             valueFrom := none }] ∧
      ∀ n ∈ fixedNames, c.env.countP (fun ev => ev.name = n) ≤ 1) :=
  ⟨by decide, by decide, (C17_no_duplication_after_do allOn staleTemplate).1⟩

/-- C18, the code at a binding with Kerberos enabled and both references
present, applied to a template with one container, no volume mount and no
volume: after `Do` the container has the mounts krb5.keytab and krb5.conf and
the template has no volume at all, so neither mount has a volume of its name. -/
theorem C18_mounts_without_volumes :
    (∀ c ∈ bareTemplate.allContainers, ∀ vm ∈ c.volumeMounts,
      vm.name ≠ "krb5.keytab" ∧ vm.name ≠ "krb5.conf") ∧
    (krbBoth.Do bareTemplate).mounts =
      [[{ name := "krb5.keytab", readOnly := false, mountPath := "/etc/", subPath := "" },
        { name := "krb5.conf", readOnly := false, mountPath := "/etc/", subPath := "" }]] ∧
    (krbBoth.Do bareTemplate).spec.template.spec.volumes = [] ∧
    ¬ (∀ c ∈ (krbBoth.Do bareTemplate).allContainers, ∀ vm ∈ c.volumeMounts,
        (vm.name = "krb5.keytab" ∨ vm.name = "krb5.conf") →
        ∃ v ∈ (krbBoth.Do bareTemplate).spec.template.spec.volumes, v.name = vm.name) := by
  decide

/-- C19: `Undo` is idempotent.  For every pod template, `Undo` applied twice
gives the same template as `Undo` applied once, and so the same env list for
every init container and every regular container. -/
theorem C19_undo_idempotent (kfb : KafkaBinding) (ps : WithPod) :
    kfb.Undo (kfb.Undo ps) = kfb.Undo ps ∧
    (kfb.Undo (kfb.Undo ps)).initEnvs = (kfb.Undo ps).initEnvs ∧
    (kfb.Undo (kfb.Undo ps)).envs = (kfb.Undo ps).envs := by
  have h : kfb.Undo (kfb.Undo ps) = kfb.Undo ps := by
    simp [KafkaBinding.Undo, List.map_map, Function.comp_def,
      undoInitContainer_eq_undoContainer, undoContainer_idem]
  exact ⟨h, by rw [h], by rw [h]⟩

/-- C20: env layout of `MakeReceiveAdapter`.  For every argument record the
deployment has exactly one container, named receive-adapter, and no init
container; its env is the eight literal entries KAFKA_BOOTSTRAP_SERVERS and
KAFKA_TOPICS (joined with ','), KAFKA_CONSUMER_GROUP, KAFKA_NET_SASL_ENABLE and
KAFKA_NET_TLS_ENABLE ("true" or "false" after the enable flag), K_SINK, NAME,
NAMESPACE in this order, then `AdditionalEnvs` in order, then literal entries
(key type, initial offset, overrides), and at the end the secret-reference
entries KAFKA_NET_SASL_USER, KAFKA_NET_SASL_PASSWORD, KAFKA_NET_SASL_TYPE,
KAFKA_NET_TLS_CERT, KAFKA_NET_TLS_KEY, KAFKA_NET_TLS_CA_CERT in this order,
each there exactly when its reference is not nil, whatever the enable flags. -/
theorem C20_receive_adapter_env_layout (deps : AdapterDeps) (args : ReceiveAdapterArgs) :
    ∃ (c : Container) (middle : List EnvVar),
      (MakeReceiveAdapter deps args).spec.template.spec.containers = [c] ∧
      (MakeReceiveAdapter deps args).spec.template.spec.initContainers = [] ∧
      c.name = "receive-adapter" ∧
      (∀ ev ∈ middle, ev.valueFrom = none ∧
        (ev.name = "KEY_TYPE" ∨ ev.name = "KAFKA_INITIAL_OFFSET" ∨
          ev.name = deps.envConfigCEOverrides)) ∧
      c.env =
        [{ name := "KAFKA_BOOTSTRAP_SERVERS",
           value := ",".intercalate args.source.spec.bootstrapServers, valueFrom := none },
         { name := "KAFKA_TOPICS",
           value := ",".intercalate args.source.spec.topics, valueFrom := none },
         { name := "KAFKA_CONSUMER_GROUP",
           value := args.source.spec.consumerGroup, valueFrom := none },
         { name := "KAFKA_NET_SASL_ENABLE",
           value := if args.source.spec.net.sasl.enable then "true" else "false",
           valueFrom := none },
         { name := "KAFKA_NET_TLS_ENABLE",
           value := if args.source.spec.net.tls.enable then "true" else "false",
           valueFrom := none },
         { name := "K_SINK", value := args.sinkURI, valueFrom := none },
         { name := "NAME", value := args.source.name, valueFrom := none },
         { name := "NAMESPACE", value := args.source.nameSpace, valueFrom := none }]
        ++ args.additionalEnvs ++ middle ++
        [("KAFKA_NET_SASL_USER", args.source.spec.net.sasl.user.secretKeyRef),
         ("KAFKA_NET_SASL_PASSWORD", args.source.spec.net.sasl.password.secretKeyRef),
         ("KAFKA_NET_SASL_TYPE", args.source.spec.net.sasl.type.secretKeyRef),
         ("KAFKA_NET_TLS_CERT", args.source.spec.net.tls.cert.secretKeyRef),
         ("KAFKA_NET_TLS_KEY", args.source.spec.net.tls.key.secretKeyRef),
         ("KAFKA_NET_TLS_CA_CERT", args.source.spec.net.tls.caCert.secretKeyRef)].filterMap
          (fun kr => kr.2.map (fun r =>
            ({ name := kr.1, value := "",
               valueFrom := some { secretKeyRef := some r, otherRef := none } } : EnvVar))) := by
  refine ⟨_, 
    (match args.source.labels.lookup deps.kafkaKeyTypeLabel with
      | some val => [{ name := "KEY_TYPE", value := val, valueFrom := none }]
      | none => []) ++
    (if args.source.spec.initialOffset ≠ "" then
      [{ name := "KAFKA_INITIAL_OFFSET", value := args.source.spec.initialOffset,
         valueFrom := none }] else []) ++
    (match args.source.spec.cloudEventOverrides with
      | some overrides => [{ name := deps.envConfigCEOverrides,
                             value := deps.jsonMarshal overrides, valueFrom := none }]
      | none => []), rfl, rfl, rfl, ?_, ?_⟩
  · intro ev hev
    cases h1 : args.source.labels.lookup deps.kafkaKeyTypeLabel <;>
    cases h3 : args.source.spec.cloudEventOverrides <;>
    by_cases h2 : args.source.spec.initialOffset = "" <;>
    simp [h1, h2, h3] at hev <;>
    (try rcases hev with rfl | rfl | rfl) <;> simp
  · rw [secretTail_eq]
    simp only [MakeReceiveAdapter]
    rw [appendEnvFromSecretKeyRef_eq _ "KAFKA_NET_TLS_CA_CERT",
      appendEnvFromSecretKeyRef_eq _ "KAFKA_NET_TLS_KEY",
      appendEnvFromSecretKeyRef_eq _ "KAFKA_NET_TLS_CERT",
      appendEnvFromSecretKeyRef_eq _ "KAFKA_NET_SASL_TYPE",
      appendEnvFromSecretKeyRef_eq _ "KAFKA_NET_SASL_PASSWORD",
      appendEnvFromSecretKeyRef_eq _ "KAFKA_NET_SASL_USER"]
    cases h1 : args.source.labels.lookup deps.kafkaKeyTypeLabel <;>
    cases h3 : args.source.spec.cloudEventOverrides <;>
    by_cases h2 : args.source.spec.initialOffset = "" <;>
    simp [h2, stringsJoin, formatBool, List.append_assoc]

/-! ## The properties of the secret watcher -/

theorem GetAuthConfigFromSecret_userPassword :
    GetAuthConfigFromSecret plainKeys (some userPasswordSecret)
      = some { sasl := some { user := { bytes := [98, 111, 98] },
                              password := { bytes := [112, 119] },
                              saslType := { bytes := [] } } } := by
  decide

theorem GetAuthConfigFromSecret_nonAscii :
    GetAuthConfigFromSecret plainKeys (some nonAsciiSecret)
      = some { sasl := some { user := { bytes := [195, 169] },
                              password := { bytes := [255] },
                              saslType := { bytes := [] } } } := by
  decide

theorem GetAuthConfigFromSecret_empty_map :
    GetAuthConfigFromSecret plainKeys (some { data := some [] })
      = some { sasl := some { user := { bytes := [] }, password := { bytes := [] },
                              saslType := { bytes := [] } } } := by
  decide

theorem dataAt_of_lookup_some (m : List (String × List (Fin 256))) (k : String)
    (b : List (Fin 256)) (h : m.lookup k = some b) : dataAt m k = b := by
  simp [dataAt, h]

theorem dataAt_of_lookup_none (m : List (String × List (Fin 256))) (k : String)
    (h : m.lookup k = none) : dataAt m k = [] := by
  simp [dataAt, h]

/-- C21: the function GetAuthConfigFromSecret.  It returns nil exactly when the
secret is nil or its `Data` map is nil; for every other secret it returns a
configuration whose SASL block is set and whose user, password and SASL type
are the strings holding exactly the bytes stored under the username, password
and sasl-type data keys, each the empty string when its key is missing from
the map. -/
theorem C21_GetAuthConfigFromSecret (keys : SecretKeys) :
    (∀ secret : Option Secret,
      GetAuthConfigFromSecret keys secret = none ↔
        (secret = none ∨ ∃ s : Secret, secret = some s ∧ s.data = none)) ∧
    (∀ (s : Secret) (data : List (String × List (Fin 256))), s.data = some data →
      ∃ sasl : KafkaSaslConfig,
        GetAuthConfigFromSecret keys (some s) = some { sasl := some sasl } ∧
        (∀ b, data.lookup keys.kafkaSecretKeyUsername = some b → sasl.user.bytes = b) ∧
        (data.lookup keys.kafkaSecretKeyUsername = none → sasl.user.bytes = []) ∧
        (∀ b, data.lookup keys.kafkaSecretKeyPassword = some b → sasl.password.bytes = b) ∧
        (data.lookup keys.kafkaSecretKeyPassword = none → sasl.password.bytes = []) ∧
        (∀ b, data.lookup keys.kafkaSecretKeySaslType = some b → sasl.saslType.bytes = b) ∧
        (data.lookup keys.kafkaSecretKeySaslType = none → sasl.saslType.bytes = [])) := by
  constructor
  · intro secret
    cases secret with
    | none => simp [GetAuthConfigFromSecret]
    | some s =>
      cases hd : s.data with
      | none => simp [GetAuthConfigFromSecret, hd]
      | some data => simp [GetAuthConfigFromSecret, hd]
  · intro s data hd
    have hres : GetAuthConfigFromSecret keys (some s) = some
        { sasl := some
            { user := bytesToString (dataAt data keys.kafkaSecretKeyUsername),
              password := bytesToString (dataAt data keys.kafkaSecretKeyPassword),
              saslType := bytesToString (dataAt data keys.kafkaSecretKeySaslType) } } := by
      simp only [GetAuthConfigFromSecret, hd]
    refine ⟨_, hres, ?_, ?_, ?_, ?_, ?_, ?_⟩
    · intro b hb
      simp only [bytesToString, dataAt_of_lookup_some _ _ _ hb]
    · intro hb
      simp only [bytesToString, dataAt_of_lookup_none _ _ hb]
    · intro b hb
      simp only [bytesToString, dataAt_of_lookup_some _ _ _ hb]
    · intro hb
      simp only [bytesToString, dataAt_of_lookup_none _ _ hb]
    · intro b hb
      simp only [bytesToString, dataAt_of_lookup_some _ _ _ hb]
    · intro hb
      simp only [bytesToString, dataAt_of_lookup_none _ _ hb]

end Bindings
